import Mathlib

set_option maxRecDepth 16384

/-!
# Verification of the orban-agent core against its specification

This file gives a shallow embedding, in Lean 4, of the parts of the
`orban-agent` Rust code base that the specification's testable properties talk
about, and proves (or refutes) those properties over the embedding.

Conventions used throughout:

* Machine integers (`u8`, `u32`, `u64`) are embedded as `Nat`, with an explicit
  `% 2 ^ w` exactly where the Rust code can overflow.
* Byte strings (`Vec<u8>`, `[u8; 32]`) are `List Nat` with every element below
  `256`.
* `f32`/`f64` telemetry values and `rust_decimal::Decimal` money values are
  embedded as exact rationals `ℚ`; every concrete input used in a theorem below
  is exactly representable in the original machine type.
* `chrono::DateTime<Utc>` values are embedded as abstract instants; only the
  operations the code performs on them (calendar-date projection, equality) are
  modelled.
* Fallible Rust functions (`Result<T, E>`) become `Except`/`Option` values.

Definitions are grouped by the source module they embed; all theorems follow
the definitions.
-/

/-! ## SHA-256

The agent hashes with the `sha2` crate (`Sha256::new` / `update` / `finalize`),
in `gpu/pow.rs` and `network/auth.rs`.  This section is an executable embedding
of the SHA-256 function itself (FIPS 180-4, as implemented by that crate):
message bytes in, the 32 digest bytes out. -/

namespace Sha256

/-- The 64 SHA-256 round constants, in order (decimal). -/
def K : List Nat :=
  [1116352408, 1899447441, 3049323471, 3921009573, 961987163,
   1508970993, 2453635748, 2870763221, 3624381080, 310598401,
   607225278, 1426881987, 1925078388, 2162078206, 2614888103,
   3248222580, 3835390401, 4022224774, 264347078, 604807628,
   770255983, 1249150122, 1555081692, 1996064986, 2554220882,
   2821834349, 2952996808, 3210313671, 3336571891, 3584528711,
   113926993, 338241895, 666307205, 773529912, 1294757372,
   1396182291, 1695183700, 1986661051, 2177026350, 2456956037,
   2730485921, 2820302411, 3259730800, 3345764771, 3516065817,
   3600352804, 4094571909, 275423344, 430227734, 506948616,
   659060556, 883997877, 958139571, 1322822218, 1537002063,
   1747873779, 1955562222, 2024104815, 2227730452, 2361852424,
   2428436474, 2756734187, 3204031479, 3329325298]

/-- 32-bit right rotation. -/
def rotr (n x : Nat) : Nat := ((x >>> n) ||| (x <<< (32 - n))) % 4294967296

/-- `Ch(x, y, z)`; the complement of `x` is taken within 32 bits. -/
def ch (x y z : Nat) : Nat := (x &&& y) ^^^ ((4294967295 ^^^ x) &&& z)

/-- `Maj(x, y, z)`. -/
def maj (x y z : Nat) : Nat := (x &&& y) ^^^ (x &&& z) ^^^ (y &&& z)

/-- `Σ0`. -/
def bigSigma0 (x : Nat) : Nat := rotr 2 x ^^^ rotr 13 x ^^^ rotr 22 x

/-- `Σ1`. -/
def bigSigma1 (x : Nat) : Nat := rotr 6 x ^^^ rotr 11 x ^^^ rotr 25 x

/-- `σ0`. -/
def smallSigma0 (x : Nat) : Nat := rotr 7 x ^^^ rotr 18 x ^^^ (x >>> 3)

/-- `σ1`. -/
def smallSigma1 (x : Nat) : Nat := rotr 17 x ^^^ rotr 19 x ^^^ (x >>> 10)

/-- A 64-bit value as 8 big-endian bytes. -/
def be64 (n : Nat) : List Nat :=
  [n / 2 ^ 56 % 256, n / 2 ^ 48 % 256, n / 2 ^ 40 % 256, n / 2 ^ 32 % 256,
   n / 2 ^ 24 % 256, n / 2 ^ 16 % 256, n / 2 ^ 8 % 256, n % 256]

/-- A 32-bit word as 4 big-endian bytes. -/
def be32 (n : Nat) : List Nat :=
  [n / 2 ^ 24 % 256, n / 2 ^ 16 % 256, n / 2 ^ 8 % 256, n % 256]

/-- SHA-256 padding: append `0x80`, zeros up to 56 mod 64, then the bit length
as 8 big-endian bytes. -/
def pad (msg : List Nat) : List Nat :=
  let len := msg.length
  let zeros := (119 - len % 64) % 64
  msg ++ [128] ++ List.replicate zeros 0 ++ be64 (len * 8)

/-- Split a byte list into 64-byte blocks (`fuel` bounds the recursion; it is
always called with `fuel = bs.length`, which more than suffices). -/
def chunks64 : Nat → List Nat → List (List Nat)
  | 0, _ => []
  | _ + 1, [] => []
  | fuel + 1, bs => bs.take 64 :: chunks64 fuel (bs.drop 64)

/-- Big-endian 32-bit words from bytes. -/
def toWords : List Nat → List Nat
  | b0 :: b1 :: b2 :: b3 :: rest =>
      (b0 * 16777216 + b1 * 65536 + b2 * 256 + b3) :: toWords rest
  | _ => []

/-- Extend the 16-word block schedule by `n` further words. -/
def extendSchedule : Nat → List Nat → List Nat
  | 0, w => w
  | n + 1, w =>
      let i := w.length
      let next := (smallSigma1 (w.getD (i - 2) 0) + w.getD (i - 7) 0 +
        smallSigma0 (w.getD (i - 15) 0) + w.getD (i - 16) 0) % 4294967296
      extendSchedule n (w ++ [next])

/-- The eight 32-bit working variables. -/
structure Hash8 where
  a : Nat
  b : Nat
  c : Nat
  d : Nat
  e : Nat
  f : Nat
  g : Nat
  h : Nat

/-- The SHA-256 initial hash value (decimal). -/
def h0 : Hash8 :=
  ⟨1779033703, 3144134277, 1013904242, 2773480762,
   1359893119, 2600822924, 528734635, 1541459225⟩

/-- One compression round; the pair carries `(Kᵢ, Wᵢ)`. -/
def round (s : Hash8) (kw : Nat × Nat) : Hash8 :=
  let t1 := (s.h + bigSigma1 s.e + ch s.e s.f s.g + kw.1 + kw.2) % 4294967296
  let t2 := (bigSigma0 s.a + maj s.a s.b s.c) % 4294967296
  ⟨(t1 + t2) % 4294967296, s.a, s.b, s.c, (s.d + t1) % 4294967296, s.e, s.f, s.g⟩

/-- Compress one 64-byte block into the running hash. -/
def processBlock (s : Hash8) (block : List Nat) : Hash8 :=
  let w := extendSchedule 48 (toWords block)
  let t := (K.zip w).foldl round s
  ⟨(s.a + t.a) % 4294967296, (s.b + t.b) % 4294967296, (s.c + t.c) % 4294967296,
   (s.d + t.d) % 4294967296, (s.e + t.e) % 4294967296, (s.f + t.f) % 4294967296,
   (s.g + t.g) % 4294967296, (s.h + t.h) % 4294967296⟩

/-- SHA-256 of a byte string, as its 32 digest bytes. -/
def sha256 (msg : List Nat) : List Nat :=
  let padded := pad msg
  let final := (chunks64 padded.length padded).foldl processBlock h0
  be32 final.a ++ be32 final.b ++ be32 final.c ++ be32 final.d ++
    be32 final.e ++ be32 final.f ++ be32 final.g ++ be32 final.h

end Sha256

/-! ## Proof-of-GPU-work — `agent-core/src/gpu/pow.rs`

`GpuPowComputer` searches for a `solution_nonce` whose hash
`SHA-256(challenge.nonce ∥ solution_nonce.to_le_bytes())` passes a difficulty
mask, and `verify` recomputes and re-checks a response. -/

namespace Pow

/-- `PowChallenge`.  The deadline is an abstract instant; `compute` compares it
with the wall clock, which the pure embedding does not model. -/
structure PowChallenge where
  challenge_id : String
  nonce : List Nat
  difficulty : Nat
  deadline : Int

/-- `GpuSignature` (the device identity attached to a response). -/
structure GpuSignature where
  device_uuid : String
  device_model : String
  cuda_version : Option String
  compute_capability : Option String

/-- `PowResponse`. -/
structure PowResponse where
  challenge_id : String
  response : List Nat
  solution_nonce : Nat
  computation_time_ms : Nat
  gpu_signature : GpuSignature

/-- A `u64` as its 8 little-endian bytes (`u64::to_le_bytes`). -/
def u64_le_bytes (n : Nat) : List Nat :=
  [n % 256, n / 2 ^ 8 % 256, n / 2 ^ 16 % 256, n / 2 ^ 24 % 256,
   n / 2 ^ 32 % 256, n / 2 ^ 40 % 256, n / 2 ^ 48 % 256, n / 2 ^ 56 % 256]

/-- The `for i in 0..bytes_to_zero { mask[i] = 0x00 }` loop of
`difficulty_mask`: zero the first `n` entries. -/
def zero_first : Nat → List Nat → List Nat
  | 0, l => l
  | _ + 1, [] => []
  | n + 1, _ :: rest => 0 :: zero_first n rest

/-- `GpuPowComputer::difficulty_mask`: 32 bytes of `0xFF`, the first
`difficulty / 8` bytes zeroed, and — when `difficulty % 8 > 0` and in range —
the next byte replaced by `0xFF >> (difficulty % 8)`. -/
def difficulty_mask (difficulty : Nat) : List Nat :=
  let mask := List.replicate 32 255
  let bytes_to_zero := difficulty / 8
  let bits_to_zero := difficulty % 8
  let mask := zero_first bytes_to_zero mask
  if bits_to_zero > 0 ∧ bytes_to_zero < 32 then
    mask.set bytes_to_zero (255 >>> bits_to_zero)
  else mask

/-- `GpuPowComputer::check_difficulty`: `hash[i] & !mask[i] == 0` for every `i`
below both lengths (the `!` is the `u8` complement, i.e. xor with `0xFF`). -/
def check_difficulty (hash mask : List Nat) : Bool :=
  (hash.zip mask).all fun p => p.1 &&& (255 ^^^ p.2) == 0

/-- `GpuPowComputer::verify`.  The source returns `Result<bool>` but has no
error path (every branch is `Ok`), so the embedding returns the `Bool`. -/
def verify (challenge : PowChallenge) (response : PowResponse) : Bool :=
  if challenge.challenge_id ≠ response.challenge_id then false
  else
    let computed_hash :=
      Sha256.sha256 (challenge.nonce ++ u64_le_bytes response.solution_nonce)
    if computed_hash ≠ response.response then false
    else check_difficulty computed_hash (difficulty_mask challenge.difficulty)

/-- Post-condition of a successful `GpuPowComputer::compute_cpu`.  A searcher
thread sends `(nonce, hash)` on the channel only when
`hash = SHA-256(challenge.nonce ∥ nonce.to_le_bytes())` passes
`check_difficulty`, and the `Ok` branch copies the challenge id and that pair
into the `PowResponse` verbatim.  Which thread wins the race (and the elapsed
time) is scheduling-dependent, so the embedding characterises the set of
possible results instead of picking one. -/
def compute_cpu_post (c : PowChallenge) (r : PowResponse) : Prop :=
  r.challenge_id = c.challenge_id ∧
  r.solution_nonce < 2 ^ 64 ∧
  r.response = Sha256.sha256 (c.nonce ++ u64_le_bytes r.solution_nonce) ∧
  check_difficulty r.response (difficulty_mask c.difficulty) = true

instance (c : PowChallenge) (r : PowResponse) : Decidable (compute_cpu_post c r) := by
  unfold compute_cpu_post; infer_instance

/-- Leading zero bits of a single byte (`b < 256`). -/
def byte_leading_zeros (b : Nat) : Nat :=
  if 128 ≤ b then 0
  else if 64 ≤ b then 1
  else if 32 ≤ b then 2
  else if 16 ≤ b then 3
  else if 8 ≤ b then 4
  else if 4 ≤ b then 5
  else if 2 ≤ b then 6
  else if 1 ≤ b then 7
  else 8

/-- Leading zero bits of a big-endian byte string. -/
def leading_zero_bits : List Nat → Nat
  | [] => 0
  | b :: rest => if b = 0 then 8 + leading_zero_bits rest else byte_leading_zeros b

/-- Recursive restatement of the mask layout, used to induct byte-by-byte:
`d ≥ 8` contributes a zero byte, a residue `0 < d < 8` contributes the partial
byte, and the tail stays `0xFF`. -/
def mask_rec : Nat → Nat → List Nat
  | _, 0 => []
  | d, n + 1 =>
    if 8 ≤ d then 0 :: mask_rec (d - 8) n
    else if 0 < d then (255 >>> d) :: List.replicate n 255
    else List.replicate (n + 1) 255

end Pow

/-! ## Reconnect strategy — `agent-core/src/network/reconnect.rs`

Exponential backoff with a retry cap; `retry` resets the counter on any
successful operation and gives up when `next_delay` returns `None`. -/

namespace Reconnect

/-- `ReconnectStrategy`'s fields (all integers; delays in whole seconds). -/
structure ReconnectStrategy where
  max_retries : Nat
  base_delay_secs : Nat
  max_delay_secs : Nat
  current_attempt : Nat
deriving DecidableEq

/-- `ReconnectStrategy::new()`: 10 retries, base 1 s, cap 300 s, counter 0. -/
def ReconnectStrategy.new : ReconnectStrategy :=
  { max_retries := 10, base_delay_secs := 1, max_delay_secs := 300, current_attempt := 0 }

/-- `ReconnectStrategy::reset` (also what `retry` performs on success). -/
def reset (s : ReconnectStrategy) : ReconnectStrategy :=
  { s with current_attempt := 0 }

/-- `ReconnectStrategy::next_delay`: `None` once `current_attempt` reaches
`max_retries`, otherwise `min(base * 2^attempt, max)` seconds, incrementing the
counter.  (`2_u64.pow` cannot overflow here: the counter never exceeds
`max_retries = 10`.) -/
def next_delay (s : ReconnectStrategy) : Option Nat × ReconnectStrategy :=
  if s.current_attempt ≥ s.max_retries then (none, s)
  else
    (some (min (s.base_delay_secs * 2 ^ s.current_attempt) s.max_delay_secs),
     { s with current_attempt := s.current_attempt + 1 })

/-- The strategy state after `n` consecutive `next_delay` calls (i.e. after `n`
consecutive connection failures). -/
def iterate_calls : Nat → ReconnectStrategy → ReconnectStrategy
  | 0, s => s
  | n + 1, s => iterate_calls n (next_delay s).2

end Reconnect

/-! ## GPU monitor — `agent/core/src/gpu/monitor.rs` and `gpu/mod.rs`

`current_status` keeps only the devices whose `get_status()` telemetry call
succeeded; `are_all_idle` asks that the sampled vector be non-empty and every
entry idle. -/

namespace Monitor

/-- `GpuType` (`agent/core/src/types.rs`). -/
inductive GpuType where
  | Nvidia
  | Amd
  | Intel
  | Apple
deriving DecidableEq

/-- `GPUStatus` (`agent/core/src/gpu/mod.rs`); `f32` telemetry as `ℚ`. -/
structure GPUStatus where
  name : String
  gpu_type : GpuType
  utilization : ℚ
  memory_used_gb : ℚ
  memory_total_gb : ℚ
  temperature : ℚ
  power_usage : ℚ
  is_available : Bool
deriving DecidableEq

/-- `GPUStatus::is_idle`: utilization strictly below `0.1`. -/
def is_idle (s : GPUStatus) : Bool :=
  s.utilization < (1 / 10 : ℚ)

/-- `GPUMonitor::current_status`: each device contributes its status exactly
when its `get_status()` succeeded, so a device is embedded as the `Option` of
that outcome and the failures are dropped. -/
def current_status (devices : List (Option GPUStatus)) : List GPUStatus :=
  devices.filterMap id

/-- `GPUMonitor::are_all_idle`: `!statuses.is_empty() && statuses.iter().all(is_idle)`. -/
def are_all_idle (devices : List (Option GPUStatus)) : Bool :=
  let statuses := current_status devices
  !statuses.isEmpty && statuses.all is_idle

end Monitor

/-! ## GPU device and detector — `agent-core/src/gpu/device.rs` and `detector.rs`

A `dyn GPUDevice` is embedded as the record of the pure values its trait
methods return; only the methods the selection path calls appear.  All
theorems below are stated for devices whose telemetry calls succeed (the
`unwrap_or(false)` / `unwrap_or(0)` fallbacks in the detector otherwise drop
the device, which the claims do not exercise). -/

namespace Gpu

/-- `TaskRequirements` (`agent-core/src/types.rs`). -/
structure TaskRequirements where
  min_vram_gb : Nat
  min_compute_capability : String
  framework : String
  fp16 : Bool
deriving DecidableEq

/-- A GPU device: index plus the telemetry the selection path reads
(`memory_info().total/free` in bytes and `compute_capability()`). -/
structure GPUDevice where
  index : Nat
  total : Nat
  free : Nat
  used : Nat
  compute_capability : String
deriving DecidableEq

/-- The `version.split('.')` iterator, collected: split a character list at
every `'.'` (an empty input gives one empty part, like Rust's `split`). -/
def split_dot : List Char → List (List Char)
  | [] => [[]]
  | c :: rest =>
    if c = '.' then [] :: split_dot rest
    else
      match split_dot rest with
      | part :: parts => (c :: part) :: parts
      | [] => [[c]]

/-- `str::parse::<u32>`: an optional leading `+`, then one or more digits,
rejecting overflow past `u32::MAX`. -/
def parse_u32 (cs : List Char) : Option Nat :=
  let digits := match cs with
    | '+' :: rest => rest
    | _ => cs
  match digits with
  | [] => none
  | _ =>
    if digits.all (fun c => '0' ≤ c ∧ c ≤ '9') then
      let n := digits.foldl (fun acc c => acc * 10 + (c.toNat - 48)) 0
      if n < 2 ^ 32 then some n else none
    else none

/-- A `u32` parse with `unwrap_or(0)`. -/
def parse_u32_or_zero (cs : List Char) : Nat :=
  (parse_u32 cs).getD 0

/-- `GPUDevice::parse_compute_capability`: split on `.`; anything but exactly
two parts is `(0, 0)`; each part parses with `unwrap_or(0)` — so `"7.x"`
parses as `(7, 0)`, not `(0, 0)`. -/
def parse_compute_capability (version : String) : Nat × Nat :=
  let parts := split_dot version.toList
  if parts.length ≠ 2 then (0, 0)
  else (parse_u32_or_zero (parts.getD 0 []), parse_u32_or_zero (parts.getD 1 []))

/-- Claim C8's reading of the capability parse: only a string of exactly two
`.`-separated *integer* parts parses as `(major, minor)`; anything else —
including `"7.x"` — is `(0, 0)`. -/
def parse_compute_capability_spec (version : String) : Nat × Nat :=
  match split_dot version.toList with
  | [a, b] =>
    match parse_u32 a, parse_u32 b with
    | some x, some y => (x, y)
    | _, _ => (0, 0)
  | _ => (0, 0)

/-- Strict lexicographic order on `(u32, u32)` pairs (Rust's derived tuple
`Ord`, as used by `device_capability < required_capability`). -/
def pair_lt (a b : Nat × Nat) : Bool :=
  a.1 < b.1 || (a.1 == b.1 && a.2 < b.2)

/-- `GPUInfo.vram_gb` as computed by `get_info`:
`(memory.total_gb().ceil() as u32)` with `total_gb = total / 2^30`.  The `f32`
division is embedded as exact rational arithmetic (its ceiling agrees with the
`f32` one on every input used below, and on every total that is exactly
representable in `f32`). -/
def vram_gb (d : GPUDevice) : Nat :=
  (d.total + 2 ^ 30 - 1) / 2 ^ 30

/-- `GPUDevice::meets_requirements`: VRAM capacity, an 80 % free-VRAM headroom
check in `u64` arithmetic (`required_bytes * 8 / 10` truncates), and the parsed
compute-capability comparison.  The `u64` product `required_bytes * 8` wraps
modulo `2^64` exactly as the release-mode source would. -/
def meets_requirements (d : GPUDevice) (req : TaskRequirements) : Bool :=
  if vram_gb d < req.min_vram_gb then false
  else
    let required_bytes := req.min_vram_gb * 1024 * 1024 * 1024
    if d.free < required_bytes * 8 % 2 ^ 64 / 10 then false
    else
      let device_capability := parse_compute_capability d.compute_capability
      let required_capability := parse_compute_capability req.min_compute_capability
      if pair_lt device_capability required_capability then false
      else true

/-- Claim C8's reading of `meets_requirements`, following the claim's words:
total VRAM (in GB, as the device's `vram_gb` value) at least `min_vram_gb`,
free VRAM at least the exact rational `0.8 × min_vram_gb` gigabytes, and the
claim's strict capability parse compared lexicographically. -/
def meets_requirements_spec (d : GPUDevice) (req : TaskRequirements) : Prop :=
  req.min_vram_gb ≤ vram_gb d ∧
  (req.min_vram_gb : ℚ) * 2 ^ 30 * (4 / 5) ≤ (d.free : ℚ) ∧
  pair_lt (parse_compute_capability_spec d.compute_capability)
    (parse_compute_capability_spec req.min_compute_capability) = false

instance (d : GPUDevice) (req : TaskRequirements) :
    Decidable (meets_requirements_spec d req) := by
  unfold meets_requirements_spec; infer_instance

/-- Insertion step of a stable descending sort on free VRAM: a later element
is inserted after every earlier element with at least as much free VRAM.
This realises the contract of `Vec::sort_by` (a stable sort) with the
comparator `b_mem.cmp(&a_mem)` used in `select_best_gpu`. -/
def insert_desc (x : GPUDevice) : List GPUDevice → List GPUDevice
  | [] => [x]
  | y :: ys => if y.free ≤ x.free then x :: y :: ys else y :: insert_desc x ys

/-- Stable descending sort on free VRAM (see `insert_desc`). -/
def sort_desc : List GPUDevice → List GPUDevice
  | [] => []
  | x :: xs => insert_desc x (sort_desc xs)

/-- `GPUDetector::select_best_gpu`: keep the devices that pass
`meets_requirements`, sort them by free VRAM descending (stable), and take the
first; `None` when no device passes. -/
def select_best_gpu (devices : List GPUDevice) (req : TaskRequirements) :
    Option GPUDevice :=
  let suitable_devices := devices.filter (fun d => meets_requirements d req)
  (sort_desc suitable_devices).head?

end Gpu

/-! ## Task executor device selection — `agent/core/src/compute/executor.rs`

`select_gpu` walks the device vector looking for enough total VRAM and a
matching type preference, and `validate_task` re-checks the selected device. -/

namespace Executor

/-- The trait methods of `agent/core`'s `GPUDevice` that the selection and
validation path calls, as a record (`total_memory_gb` is `f32`, embedded
exactly as `ℚ`). -/
structure GPUDevice where
  name : String
  gpu_type : Monitor.GpuType
  total_memory_gb : ℚ
  compute_capability : Option String
deriving DecidableEq

/-- `TaskRequirements` (`agent/core/src/types.rs`). -/
structure TaskRequirements where
  vram_gb : ℚ
  min_compute_capability : Option String
  preferred_gpu_type : Option Monitor.GpuType
deriving DecidableEq

/-- The part of `Task` that `select_gpu`/`validate_task` consult. -/
structure Task where
  id : String
  requirements : TaskRequirements
deriving DecidableEq

/-- The `agent/core` error cases this path can produce.  `InvalidTask` carries
a formatted message in the source; the message text is elided. -/
inductive Error where
  | NoGpuFound
  | InvalidTask
deriving DecidableEq

/-- The per-device test of `select_gpu`'s loop: enough total VRAM, and — when
a preference is given — the matching GPU type (a device of the wrong preferred
type is skipped, not returned). -/
def gpu_matches (task : Task) (gpu : GPUDevice) : Bool :=
  task.requirements.vram_gb ≤ gpu.total_memory_gb &&
    match task.requirements.preferred_gpu_type with
    | some preferred => gpu.gpu_type == preferred
    | none => true

/-- `TaskExecutor::select_gpu`: `NoGpuFound` on an empty vector; otherwise the
first device passing `gpu_matches`, and — when none passes — the loop falls
through to `Ok(self.gpus[0].clone())`, the first device regardless of fit. -/
def select_gpu (gpus : List GPUDevice) (task : Task) : Except Error GPUDevice :=
  match gpus with
  | [] => .error .NoGpuFound
  | g0 :: _ =>
    match gpus.find? (gpu_matches task) with
    | some gpu => .ok gpu
    | none => .ok g0

/-- `TaskExecutor::validate_task`: `InvalidTask` when the device's total VRAM
is below the requirement, or when both a minimum compute capability and a
device capability are present and the device's is smaller in plain string
comparison; otherwise `Ok(())`. -/
def validate_task (task : Task) (gpu : GPUDevice) : Except Error Unit :=
  if gpu.total_memory_gb < task.requirements.vram_gb then .error .InvalidTask
  else
    match task.requirements.min_compute_capability, gpu.compute_capability with
    | some min_cc, some cc => if cc < min_cc then .error .InvalidTask else .ok ()
    | _, _ => .ok ()

end Executor

/-! ## Shared earnings vocabulary

Both earnings modules use the status enum of their `types.rs` and timestamp
values whose only consulted projection is the calendar date
(`DateTime::date_naive`). -/

namespace Earnings

/-- `EarningStatus` (identical in `agent-core/src/types.rs` and
`agent/core/src/types.rs`). -/
inductive EarningStatus where
  | Pending
  | Confirmed
  | Paid
deriving DecidableEq

/-- A `DateTime<Utc>` instant: the calendar day (as consulted by
`date_naive()`) plus the time of day, which the earnings code never reads. -/
structure UtcInstant where
  day : Int
  nanos_of_day : Nat
deriving DecidableEq

/-- `DateTime::date_naive`, as the day projection of the instant. -/
def date_naive (t : UtcInstant) : Int := t.day

end Earnings

/-! ## Earnings aggregation — `agent/core/src/earnings/mod.rs`

`EarningsTracker::get_data` derives the `(total, today, pending)` triple and a
per-day map from the raw record vector. -/

namespace EarningsUi

open Earnings

/-- `EarningRecord` (`agent/core/src/earnings/mod.rs`); decimals as `ℚ`. -/
structure EarningRecord where
  task_id : String
  gpu_model : String
  gpu_hours : ℚ
  rate_per_hour : ℚ
  amount : ℚ
  status : EarningStatus
  timestamp : UtcInstant
deriving DecidableEq

/-- `EarningsData` (the derived view); the `daily_stats` hash map is embedded
as an association list keyed by day. -/
structure EarningsData where
  total_earnings : ℚ
  today_earnings : ℚ
  pending_earnings : ℚ
  history : List EarningRecord
  daily_stats : List (Int × ℚ)
deriving DecidableEq

/-- `*daily_stats.entry(date).or_insert(ZERO) += amount` on the association
list: add to the existing key or append it. -/
def update_daily : List (Int × ℚ) → Int → ℚ → List (Int × ℚ)
  | [], d, a => [(d, a)]
  | (k, v) :: rest, d, a =>
    if k = d then (k, v + a) :: rest else (k, v) :: update_daily rest d a

/-- `EarningsTracker::get_data`.  `today` stands for `Utc::now().date_naive()`,
passed explicitly since the embedding is pure.  Note that `total_earnings`
sums over *all* records, whatever their status. -/
def get_data (records : List EarningRecord) (today : Int) : EarningsData :=
  let total_earnings := (records.map (fun r => r.amount)).sum
  let today_earnings :=
    ((records.filter (fun r => date_naive r.timestamp = today)).map
      (fun r => r.amount)).sum
  let pending_earnings :=
    ((records.filter (fun r => r.status = EarningStatus.Pending)).map
      (fun r => r.amount)).sum
  let daily_stats := records.foldl
    (fun m r => update_daily m (date_naive r.timestamp) r.amount) []
  { total_earnings := total_earnings
    today_earnings := today_earnings
    pending_earnings := pending_earnings
    history := records
    daily_stats := daily_stats }

end EarningsUi

/-! ## Earnings tracker — `agent-core/src/earnings/tracker.rs`

The stateful tracker: `record_earnings` appends a `Pending` record and bumps
`pending_earnings`; `confirm_earnings` flips the first record with the given
task id from `Pending` to `Confirmed`, moving its amount from pending to
total.  File persistence (`save_to_file`) is I/O and outside the state
transition itself. -/

namespace Tracker

open Earnings

/-- `EarningRecord` (`agent-core/src/types.rs`). -/
structure EarningRecord where
  timestamp : UtcInstant
  task_id : String
  gpu_hours : ℚ
  rate_per_hour : ℚ
  amount : ℚ
  status : EarningStatus
deriving DecidableEq

/-- `EarningsData` (`agent-core/src/types.rs`). -/
structure EarningsData where
  total_earnings : ℚ
  today_earnings : ℚ
  pending_earnings : ℚ
  history : List EarningRecord
deriving DecidableEq

/-- `EarningsDetail` (`agent-core/src/network/orban_protocol.rs`), the payload
`record_earnings` consumes. -/
structure EarningsDetail where
  gpu_hours : ℚ
  rate_usd_per_hour : ℚ
  amount_usd : ℚ
  bonus_multiplier : ℚ
  final_amount_usd : ℚ
deriving DecidableEq

/-- The fresh state `EarningsTracker::new` builds when no file exists. -/
def empty : EarningsData :=
  { total_earnings := 0, today_earnings := 0, pending_earnings := 0, history := [] }

/-- `EarningsTracker::record_earnings`: append a `Pending` record stamped
`Utc::now()` (passed as `now`) with an empty task id, adding its amount to
`pending_earnings`. -/
def record_earnings (st : EarningsData) (earnings : EarningsDetail)
    (now : UtcInstant) : EarningsData :=
  let record : EarningRecord :=
    { timestamp := now
      task_id := ""
      gpu_hours := earnings.gpu_hours
      rate_per_hour := earnings.rate_usd_per_hour
      amount := earnings.final_amount_usd
      status := EarningStatus.Pending }
  { st with
    pending_earnings := st.pending_earnings + record.amount
    history := st.history ++ [record] }

/-- The `iter_mut().find(...)` of `confirm_earnings`: locate the first record
with the given task id; if it is `Pending`, flip it to `Confirmed` and report
its amount, otherwise leave the list unchanged. -/
def confirm_list : List EarningRecord → String → List EarningRecord × Option ℚ
  | [], _ => ([], none)
  | r :: rest, task_id =>
    if r.task_id = task_id then
      if r.status = EarningStatus.Pending then
        ({ r with status := EarningStatus.Confirmed } :: rest, some r.amount)
      else (r :: rest, none)
    else
      let (rest', moved) := confirm_list rest task_id
      (r :: rest', moved)

/-- `EarningsTracker::confirm_earnings`. -/
def confirm_earnings (st : EarningsData) (task_id : String) : EarningsData :=
  match confirm_list st.history task_id with
  | (history', some amount) =>
    { st with
      history := history'
      pending_earnings := st.pending_earnings - amount
      total_earnings := st.total_earnings + amount }
  | (history', none) => { st with history := history' }

/-- `EarningsTracker::update_today_earnings`: recompute `today_earnings` from
the history (this is the only operation that writes that field). -/
def update_today_earnings (st : EarningsData) (today : Int) : EarningsData :=
  { st with
    today_earnings :=
      ((st.history.filter (fun r => date_naive r.timestamp = today)).map
        (fun r => r.amount)).sum }

/-- One tracker operation, as the claim's "sequence of record/confirm
operations". -/
inductive Op where
  | record (earnings : EarningsDetail) (now : UtcInstant)
  | confirm (task_id : String)

/-- Apply one operation. -/
def apply_op (st : EarningsData) : Op → EarningsData
  | .record earnings now => record_earnings st earnings now
  | .confirm task_id => confirm_earnings st task_id

/-- Run a sequence of operations from the empty history. -/
def run (ops : List Op) : EarningsData :=
  ops.foldl apply_op empty

/-- Sum of the amounts of the records with `Confirmed` or `Paid` status (the
claim's reading of `total`). -/
def sum_confirmed_paid (history : List EarningRecord) : ℚ :=
  ((history.filter (fun r =>
    r.status = EarningStatus.Confirmed ∨ r.status = EarningStatus.Paid)).map
    (fun r => r.amount)).sum

/-- Sum of the amounts of the `Pending` records. -/
def sum_pending (history : List EarningRecord) : ℚ :=
  ((history.filter (fun r => r.status = EarningStatus.Pending)).map
    (fun r => r.amount)).sum

end Tracker

/-! ## Authentication — `agent-core/src/network/auth.rs`

`Authenticator::verify_signature` base64-decodes the signature string, rebuilds
an `ed25519_dalek::Signature` from the bytes, and only then verifies.  The two
rebuild steps propagate *errors* (`Error::EncryptionError`); only a completed
curve verification can produce `Ok(false)`. -/

namespace Auth

/-- The value of a standard-alphabet base64 character. -/
def b64_val (c : Char) : Option Nat :=
  if 'A' ≤ c ∧ c ≤ 'Z' then some (c.toNat - 65)
  else if 'a' ≤ c ∧ c ≤ 'z' then some (c.toNat - 71)
  else if '0' ≤ c ∧ c ≤ '9' then some (c.toNat + 4)
  else if c = '+' then some 62
  else if c = '/' then some 63
  else none

/-- Strict standard base64 decoding over four-character groups, as performed by
`base64::engine::general_purpose::STANDARD`: canonical `=`-padding only at the
end, invalid characters and lengths rejected, and non-zero trailing bits
rejected. -/
def decode_groups : List Char → Option (List Nat)
  | [] => some []
  | c1 :: c2 :: c3 :: c4 :: rest =>
    match b64_val c1, b64_val c2 with
    | some v1, some v2 =>
      if c3 = '=' then
        if c4 = '=' ∧ rest = [] then
          if v2 % 16 = 0 then some [v1 * 4 + v2 / 16] else none
        else none
      else
        match b64_val c3 with
        | some v3 =>
          if c4 = '=' then
            if rest = [] then
              if v3 % 4 = 0 then
                some [v1 * 4 + v2 / 16, v2 % 16 * 16 + v3 / 4]
              else none
            else none
          else
            match b64_val c4 with
            | some v4 =>
              (decode_groups rest).map fun bs =>
                (v1 * 4 + v2 / 16) :: (v2 % 16 * 16 + v3 / 4) :: (v3 % 4 * 64 + v4) :: bs
            | none => none
        | none => none
    | _, _ => none
  | _ => none

/-- `general_purpose::STANDARD.decode` on a string. -/
def base64_decode (s : String) : Option (List Nat) :=
  decode_groups s.toList

/-- The error value both failure branches of `verify_signature` produce
(`Error::EncryptionError(e.to_string())`; the carried library message is
elided). -/
inductive Error where
  | EncryptionError
deriving DecidableEq

/-- `Authenticator::verify_signature`.  `ed25519_verify` stands for
`self.verifying_key.verify(message, &signature).is_ok()` — the curve
computation itself, over which every theorem below is parametric.
`Signature::from_slice` fails exactly when the decoded length is not 64 (any
64 bytes form a `Signature` in `ed25519_dalek` 2.x). -/
def verify_signature (ed25519_verify : List Nat → List Nat → Bool)
    (message : List Nat) (signature : String) : Except Error Bool :=
  match base64_decode signature with
  | none => .error .EncryptionError
  | some signature_bytes =>
    if signature_bytes.length = 64 then
      .ok (ed25519_verify message signature_bytes)
    else .error .EncryptionError

end Auth

/-! ## Wire protocol — `agent-core/src/network/orban_protocol.rs`

The `Message` envelope `{message_id, timestamp, type}` carries its payload via
`#[serde(flatten)]`, and `MessagePayload` is `#[serde(untagged)]`.  The
embedding models the JSON text as a tree whose objects are *ordered key/value
lists that may contain duplicate keys* (exactly what `serde_json` emits and
parses), and reproduces the serde derive semantics of flatten (envelope fields
captured with duplicate detection, the remainder buffered for the payload) and
of untagged enums (the first variant whose required fields all parse wins).

Two leaves abstract textual encodings bijectively: `JValue.time` stands for
the RFC-3339 string of a `chrono::DateTime<Utc>`, `JValue.dec` for the decimal
string of a `rust_decimal::Decimal`.  No payload deserializes a plain
`String` field from either shape, so the abstraction does not disturb
variant selection for messages the builders can produce. -/

namespace Proto

/-- A `serde_json` value (see the section comment for the `time`/`dec`
leaves).  Objects are ordered entry lists, duplicates permitted. -/
inductive JValue where
  | null
  | bool (b : Bool)
  | num (q : ℚ)
  | str (s : String)
  | time (t : Int)
  | dec (d : ℚ)
  | arr (xs : List JValue)
  | obj (entries : List (String × JValue))

/-- `MessageType`, with `SCREAMING_SNAKE_CASE` renaming. -/
inductive MessageType where
  | AuthChallenge
  | AuthResponse
  | AuthSuccess
  | AgentRegister
  | RegisterAck
  | TaskAssign
  | TaskAccept
  | TaskReject
  | TaskProgress
  | TaskComplete
  | TaskFailed
  | Heartbeat
  | MetricsBatch
  | EarningsRecord
  | PayoutNotification
  | PowChallenge
  | PowResponse
  | Error
  | StateSync
deriving DecidableEq

/-- The wire tag of a `MessageType`. -/
def MessageType.tag : MessageType → String
  | .AuthChallenge => "AUTH_CHALLENGE"
  | .AuthResponse => "AUTH_RESPONSE"
  | .AuthSuccess => "AUTH_SUCCESS"
  | .AgentRegister => "AGENT_REGISTER"
  | .RegisterAck => "REGISTER_ACK"
  | .TaskAssign => "TASK_ASSIGN"
  | .TaskAccept => "TASK_ACCEPT"
  | .TaskReject => "TASK_REJECT"
  | .TaskProgress => "TASK_PROGRESS"
  | .TaskComplete => "TASK_COMPLETE"
  | .TaskFailed => "TASK_FAILED"
  | .Heartbeat => "HEARTBEAT"
  | .MetricsBatch => "METRICS_BATCH"
  | .EarningsRecord => "EARNINGS_RECORD"
  | .PayoutNotification => "PAYOUT_NOTIFICATION"
  | .PowChallenge => "POW_CHALLENGE"
  | .PowResponse => "POW_RESPONSE"
  | .Error => "ERROR"
  | .StateSync => "STATE_SYNC"

/-- Deserialize a `MessageType` from its wire tag. -/
def MessageType.parse? (s : String) : Option MessageType :=
  if s = "AUTH_CHALLENGE" then some .AuthChallenge
  else if s = "AUTH_RESPONSE" then some .AuthResponse
  else if s = "AUTH_SUCCESS" then some .AuthSuccess
  else if s = "AGENT_REGISTER" then some .AgentRegister
  else if s = "REGISTER_ACK" then some .RegisterAck
  else if s = "TASK_ASSIGN" then some .TaskAssign
  else if s = "TASK_ACCEPT" then some .TaskAccept
  else if s = "TASK_REJECT" then some .TaskReject
  else if s = "TASK_PROGRESS" then some .TaskProgress
  else if s = "TASK_COMPLETE" then some .TaskComplete
  else if s = "TASK_FAILED" then some .TaskFailed
  else if s = "HEARTBEAT" then some .Heartbeat
  else if s = "METRICS_BATCH" then some .MetricsBatch
  else if s = "EARNINGS_RECORD" then some .EarningsRecord
  else if s = "PAYOUT_NOTIFICATION" then some .PayoutNotification
  else if s = "POW_CHALLENGE" then some .PowChallenge
  else if s = "POW_RESPONSE" then some .PowResponse
  else if s = "ERROR" then some .Error
  else if s = "STATE_SYNC" then some .StateSync
  else none

/-- `GPUVendor` (`agent-core/src/types.rs`), serialized by variant name. -/
inductive GPUVendor where
  | NVIDIA
  | AMD
  | Intel
  | Apple
deriving DecidableEq

/-- Wire form of a `GPUVendor`. -/
def GPUVendor.tag : GPUVendor → String
  | .NVIDIA => "NVIDIA"
  | .AMD => "AMD"
  | .Intel => "Intel"
  | .Apple => "Apple"

/-- `AgentStatus`, with lowercase renaming. -/
inductive AgentStatus where
  | Idle
  | Working
  | Error
  | Offline
deriving DecidableEq

/-- Wire form of an `AgentStatus`. -/
def AgentStatus.tag : AgentStatus → String
  | .Idle => "idle"
  | .Working => "working"
  | .Error => "error"
  | .Offline => "offline"

/-- `PayoutStatus` (`agent-core/src/types.rs`), serialized by variant name. -/
inductive PayoutStatus where
  | Processing
  | Completed
  | Failed
deriving DecidableEq

/-- Wire form of a `PayoutStatus`. -/
def PayoutStatus.tag : PayoutStatus → String
  | .Processing => "Processing"
  | .Completed => "Completed"
  | .Failed => "Failed"

/-- Wire form of an `EarningStatus` (variant name; no renaming attribute). -/
def earningStatusTag : Earnings.EarningStatus → String
  | .Pending => "Pending"
  | .Confirmed => "Confirmed"
  | .Paid => "Paid"

/-- `CPUInfo` (`agent-core/src/types.rs`). -/
structure CPUInfo where
  model : String
  cores : Nat
  threads : Nat

/-- `GPUInfo` (`agent-core/src/types.rs`). -/
structure GPUInfo where
  index : Nat
  vendor : GPUVendor
  model : String
  vram_gb : Nat
  compute_capability : String
  cuda_cores : Option Nat
  pcie_bandwidth_gbps : Nat

/-- `HardwareInfo` (`agent-core/src/types.rs`). -/
structure HardwareInfo where
  gpus : List GPUInfo
  cpu : CPUInfo
  memory_gb : Nat
  storage_available_gb : Nat

/-- `Capabilities` (`agent-core/src/types.rs`). -/
structure Capabilities where
  supported_frameworks : List String
  max_batch_size : Nat
  fp16_support : Bool
  int8_support : Bool

/-- `Availability` (`agent-core/src/types.rs`). -/
structure Availability where
  hours_per_day : Nat
  reliability_score : ℚ

/-- `Location` (`agent-core/src/types.rs`). -/
structure Location where
  country : String
  region : String
  latency_to_platform_ms : Nat

/-- `TaskPayload` (`agent-core/src/types.rs`); `config` is a free
`serde_json::Value`. -/
structure TaskPayload where
  model_url : String
  model_hash : String
  input_data_url : String
  output_url : String
  config : JValue

/-- `Pricing` (`agent-core/src/types.rs`); all three fields `Decimal`. -/
structure Pricing where
  base_rate_usd_per_hour : ℚ
  gpu_multiplier : ℚ
  effective_rate : ℚ

/-- `TaskResult` (`agent-core/src/types.rs`). -/
structure TaskResult where
  output_url : String
  output_hash : String
  execution_time_sec : Nat
  gpu_time_sec : Nat

/-- `ProofOfWork` (`agent-core/src/types.rs`); `response: Vec<u8>` serializes
as an array of numbers. -/
structure ProofOfWork where
  method : String
  challenge_id : String
  response : List Nat
  gpu_signature : String

/-- `ExecutionMetrics` (`agent-core/src/types.rs`). -/
structure ExecutionMetrics where
  avg_gpu_utilization : ℚ
  peak_memory_gb : ℚ
  energy_kwh : ℚ

/-- `GPUStatus` (`agent-core/src/types.rs`). -/
structure GPUStatus where
  index : Nat
  utilization : ℚ
  memory_used_gb : ℚ
  memory_total_gb : ℚ
  temperature_c : ℚ
  power_draw_w : ℚ
  fan_speed_percent : ℚ

/-- `TaskMetrics`. -/
structure TaskMetrics where
  gpu_utilization : ℚ
  memory_used_gb : ℚ
  throughput_tokens_per_sec : Option ℚ

/-- `TaskErrorInfo`. -/
structure TaskErrorInfo where
  code : String
  message : String
  details : String

/-- `TimeRange`; the Rust field `end` is spelled `end_` (a Lean keyword), its
wire key stays `"end"`. -/
structure TimeRange where
  start : Int
  end_ : Int

/-- `AggregatedMetrics`. -/
structure AggregatedMetrics where
  tasks_completed : Nat
  tasks_failed : Nat
  total_gpu_hours : ℚ
  avg_gpu_utilization : ℚ
  total_energy_kwh : ℚ
  earnings_usd : ℚ

/-- `PayoutPeriod` (two plain strings on the wire; `end` spelled `end_`). -/
structure PayoutPeriod where
  start : String
  end_ : String

/-- `PayoutSummary`. -/
structure PayoutSummary where
  total_tasks : Nat
  total_gpu_hours : ℚ
  gross_amount_usd : ℚ
  platform_fee_usd : ℚ
  net_amount_usd : ℚ

/-- `GpuSignature` (the protocol one — distinct from `pow.rs`'s). -/
structure GpuSignature where
  device_uuid : String
  cuda_version : Option String

/-- `ActiveTaskInfo`. -/
structure ActiveTaskInfo where
  task_id : String
  progress : ℚ
  started_at : Int

/-- `AuthChallengePayload` (note its own `timestamp: u64` field). -/
structure AuthChallengePayload where
  challenge : String
  timestamp : Nat

/-- `AuthResponsePayload`. -/
structure AuthResponsePayload where
  agent_id : String
  signature : String
  public_key : String

/-- `AuthSuccessPayload`. -/
structure AuthSuccessPayload where
  jwt_token : String
  expires_in : Nat

/-- `AgentRegisterPayload`. -/
structure AgentRegisterPayload where
  agent_id : String
  hardware : HardwareInfo
  capabilities : Capabilities
  location : Location
  availability : Availability

/-- `RegisterAckPayload`. -/
structure RegisterAckPayload where
  agent_id : String
  status : String
  pricing : Pricing

/-- `TaskAssignPayload`. -/
structure TaskAssignPayload where
  task_id : String
  job_id : String
  priority : Nat
  estimated_duration_sec : Nat
  requirements : Gpu.TaskRequirements
  payload : TaskPayload
  pricing : Pricing

/-- `TaskAcceptPayload`. -/
structure TaskAcceptPayload where
  task_id : String
  agent_id : String
  gpu_allocated : Nat
  estimated_completion : Int

/-- `TaskRejectPayload`. -/
structure TaskRejectPayload where
  task_id : String
  reason : String
  details : String

/-- `TaskProgressPayload` (note its own `timestamp` field). -/
structure TaskProgressPayload where
  task_id : String
  progress : ℚ
  stage : String
  metrics : TaskMetrics
  timestamp : Int

/-- `TaskCompletePayload`. -/
structure TaskCompletePayload where
  task_id : String
  result : TaskResult
  proof_of_work : ProofOfWork
  metrics : ExecutionMetrics

/-- `TaskFailedPayload`. -/
structure TaskFailedPayload where
  task_id : String
  error : TaskErrorInfo
  partial_results : Option String

/-- `HeartbeatPayload` (note its own `timestamp` field). -/
structure HeartbeatPayload where
  agent_id : String
  status : AgentStatus
  current_task_id : Option String
  gpu_status : List GPUStatus
  uptime_sec : Nat
  timestamp : Int

/-- `MetricsBatchPayload`. -/
structure MetricsBatchPayload where
  agent_id : String
  time_range : TimeRange
  aggregated_metrics : AggregatedMetrics

/-- `EarningsRecordPayload`. -/
structure EarningsRecordPayload where
  task_id : String
  earnings : Tracker.EarningsDetail
  status : Earnings.EarningStatus
  estimated_payout_date : String

/-- `PayoutNotificationPayload`. -/
structure PayoutNotificationPayload where
  payout_id : String
  period : PayoutPeriod
  summary : PayoutSummary
  payment_method : String
  payment_address : String
  status : PayoutStatus

/-- `PowChallengePayload` (nonce base64-encoded on the wire). -/
structure PowChallengePayload where
  challenge_id : String
  nonce : String
  difficulty : Nat
  deadline : Int

/-- `PowResponsePayload`. -/
structure PowResponsePayload where
  challenge_id : String
  response : String
  computation_time_ms : Nat
  gpu_signature : GpuSignature

/-- `ErrorPayload`. -/
structure ErrorPayload where
  code : String
  message : String
  context : Option JValue
  recoverable : Bool

/-- `StateSyncPayload`. -/
structure StateSyncPayload where
  agent_id : String
  last_heartbeat : Int
  active_tasks : List ActiveTaskInfo

/-- `MessagePayload`, in source declaration order (the order untagged
deserialization tries). -/
inductive MessagePayload where
  | AuthChallenge (p : AuthChallengePayload)
  | AuthResponse (p : AuthResponsePayload)
  | AuthSuccess (p : AuthSuccessPayload)
  | AgentRegister (p : AgentRegisterPayload)
  | RegisterAck (p : RegisterAckPayload)
  | TaskAssign (p : TaskAssignPayload)
  | TaskAccept (p : TaskAcceptPayload)
  | TaskReject (p : TaskRejectPayload)
  | TaskProgress (p : TaskProgressPayload)
  | TaskComplete (p : TaskCompletePayload)
  | TaskFailed (p : TaskFailedPayload)
  | Heartbeat (p : HeartbeatPayload)
  | MetricsBatch (p : MetricsBatchPayload)
  | EarningsRecord (p : EarningsRecordPayload)
  | PayoutNotification (p : PayoutNotificationPayload)
  | PowChallenge (p : PowChallengePayload)
  | PowResponse (p : PowResponsePayload)
  | Error (p : ErrorPayload)
  | StateSync (p : StateSyncPayload)

/-- `Message`: envelope plus flattened payload. -/
structure Message where
  message_id : String
  timestamp : Int
  message_type : MessageType
  payload : MessagePayload

end Proto

namespace Proto

/-! ### Serialization (`Message::to_json`)

Each struct serializes to its fields in declaration order; `Option` fields
with no `skip_serializing_if` attribute serialize `None` as `null`. -/

/-- Serialize an `Option` field value (`None` becomes `null`). -/
def optJ (f : α → JValue) : Option α → JValue
  | none => .null
  | some a => f a

/-- `CPUInfo` fields. -/
def CPUInfo.toJ (x : CPUInfo) : JValue :=
  .obj [("model", .str x.model), ("cores", .num x.cores), ("threads", .num x.threads)]

/-- `GPUInfo` fields. -/
def GPUInfo.toJ (x : GPUInfo) : JValue :=
  .obj [("index", .num x.index), ("vendor", .str x.vendor.tag),
    ("model", .str x.model), ("vram_gb", .num x.vram_gb),
    ("compute_capability", .str x.compute_capability),
    ("cuda_cores", optJ (fun n => .num n) x.cuda_cores),
    ("pcie_bandwidth_gbps", .num x.pcie_bandwidth_gbps)]

/-- `HardwareInfo` fields. -/
def HardwareInfo.toJ (x : HardwareInfo) : JValue :=
  .obj [("gpus", .arr (x.gpus.map GPUInfo.toJ)), ("cpu", x.cpu.toJ),
    ("memory_gb", .num x.memory_gb),
    ("storage_available_gb", .num x.storage_available_gb)]

/-- `Capabilities` fields. -/
def Capabilities.toJ (x : Capabilities) : JValue :=
  .obj [("supported_frameworks", .arr (x.supported_frameworks.map JValue.str)),
    ("max_batch_size", .num x.max_batch_size),
    ("fp16_support", .bool x.fp16_support), ("int8_support", .bool x.int8_support)]

/-- `Availability` fields. -/
def Availability.toJ (x : Availability) : JValue :=
  .obj [("hours_per_day", .num x.hours_per_day),
    ("reliability_score", .num x.reliability_score)]

/-- `Location` fields. -/
def Location.toJ (x : Location) : JValue :=
  .obj [("country", .str x.country), ("region", .str x.region),
    ("latency_to_platform_ms", .num x.latency_to_platform_ms)]

/-- `TaskRequirements` fields (the `agent-core/src/types.rs` struct shared
with the GPU selection path). -/
def taskRequirementsToJ (x : Gpu.TaskRequirements) : JValue :=
  .obj [("min_vram_gb", .num x.min_vram_gb),
    ("min_compute_capability", .str x.min_compute_capability),
    ("framework", .str x.framework), ("fp16", .bool x.fp16)]

/-- `TaskPayload` fields. -/
def TaskPayload.toJ (x : TaskPayload) : JValue :=
  .obj [("model_url", .str x.model_url), ("model_hash", .str x.model_hash),
    ("input_data_url", .str x.input_data_url), ("output_url", .str x.output_url),
    ("config", x.config)]

/-- `Pricing` fields. -/
def Pricing.toJ (x : Pricing) : JValue :=
  .obj [("base_rate_usd_per_hour", .dec x.base_rate_usd_per_hour),
    ("gpu_multiplier", .dec x.gpu_multiplier),
    ("effective_rate", .dec x.effective_rate)]

/-- `TaskResult` fields. -/
def TaskResult.toJ (x : TaskResult) : JValue :=
  .obj [("output_url", .str x.output_url), ("output_hash", .str x.output_hash),
    ("execution_time_sec", .num x.execution_time_sec),
    ("gpu_time_sec", .num x.gpu_time_sec)]

/-- `ProofOfWork` fields. -/
def ProofOfWork.toJ (x : ProofOfWork) : JValue :=
  .obj [("method", .str x.method), ("challenge_id", .str x.challenge_id),
    ("response", .arr (x.response.map (fun b => .num b))),
    ("gpu_signature", .str x.gpu_signature)]

/-- `ExecutionMetrics` fields. -/
def ExecutionMetrics.toJ (x : ExecutionMetrics) : JValue :=
  .obj [("avg_gpu_utilization", .num x.avg_gpu_utilization),
    ("peak_memory_gb", .num x.peak_memory_gb), ("energy_kwh", .num x.energy_kwh)]

/-- `GPUStatus` fields. -/
def GPUStatus.toJ (x : GPUStatus) : JValue :=
  .obj [("index", .num x.index), ("utilization", .num x.utilization),
    ("memory_used_gb", .num x.memory_used_gb),
    ("memory_total_gb", .num x.memory_total_gb),
    ("temperature_c", .num x.temperature_c),
    ("power_draw_w", .num x.power_draw_w),
    ("fan_speed_percent", .num x.fan_speed_percent)]

/-- `TaskMetrics` fields. -/
def TaskMetrics.toJ (x : TaskMetrics) : JValue :=
  .obj [("gpu_utilization", .num x.gpu_utilization),
    ("memory_used_gb", .num x.memory_used_gb),
    ("throughput_tokens_per_sec", optJ (fun q => .num q) x.throughput_tokens_per_sec)]

/-- `TaskErrorInfo` fields. -/
def TaskErrorInfo.toJ (x : TaskErrorInfo) : JValue :=
  .obj [("code", .str x.code), ("message", .str x.message),
    ("details", .str x.details)]

/-- `TimeRange` fields. -/
def TimeRange.toJ (x : TimeRange) : JValue :=
  .obj [("start", .time x.start), ("end", .time x.end_)]

/-- `AggregatedMetrics` fields. -/
def AggregatedMetrics.toJ (x : AggregatedMetrics) : JValue :=
  .obj [("tasks_completed", .num x.tasks_completed),
    ("tasks_failed", .num x.tasks_failed),
    ("total_gpu_hours", .num x.total_gpu_hours),
    ("avg_gpu_utilization", .num x.avg_gpu_utilization),
    ("total_energy_kwh", .num x.total_energy_kwh),
    ("earnings_usd", .dec x.earnings_usd)]

/-- `EarningsDetail` fields (`gpu_hours` is `f64`, the three USD amounts are
`Decimal`, `bonus_multiplier` is `f32`). -/
def earningsDetailToJ (x : Tracker.EarningsDetail) : JValue :=
  .obj [("gpu_hours", .num x.gpu_hours),
    ("rate_usd_per_hour", .dec x.rate_usd_per_hour),
    ("amount_usd", .dec x.amount_usd),
    ("bonus_multiplier", .num x.bonus_multiplier),
    ("final_amount_usd", .dec x.final_amount_usd)]

/-- `PayoutPeriod` fields. -/
def PayoutPeriod.toJ (x : PayoutPeriod) : JValue :=
  .obj [("start", .str x.start), ("end", .str x.end_)]

/-- `PayoutSummary` fields. -/
def PayoutSummary.toJ (x : PayoutSummary) : JValue :=
  .obj [("total_tasks", .num x.total_tasks),
    ("total_gpu_hours", .num x.total_gpu_hours),
    ("gross_amount_usd", .dec x.gross_amount_usd),
    ("platform_fee_usd", .dec x.platform_fee_usd),
    ("net_amount_usd", .dec x.net_amount_usd)]

/-- Protocol `GpuSignature` fields. -/
def GpuSignature.toJ (x : GpuSignature) : JValue :=
  .obj [("device_uuid", .str x.device_uuid),
    ("cuda_version", optJ JValue.str x.cuda_version)]

/-- `ActiveTaskInfo` fields. -/
def ActiveTaskInfo.toJ (x : ActiveTaskInfo) : JValue :=
  .obj [("task_id", .str x.task_id), ("progress", .num x.progress),
    ("started_at", .time x.started_at)]

/-- The flattened payload fields, per variant, in struct declaration order. -/
def payload_entries : MessagePayload → List (String × JValue)
  | .AuthChallenge p =>
    [("challenge", .str p.challenge), ("timestamp", .num p.timestamp)]
  | .AuthResponse p =>
    [("agent_id", .str p.agent_id), ("signature", .str p.signature),
     ("public_key", .str p.public_key)]
  | .AuthSuccess p =>
    [("jwt_token", .str p.jwt_token), ("expires_in", .num p.expires_in)]
  | .AgentRegister p =>
    [("agent_id", .str p.agent_id), ("hardware", p.hardware.toJ),
     ("capabilities", p.capabilities.toJ), ("location", p.location.toJ),
     ("availability", p.availability.toJ)]
  | .RegisterAck p =>
    [("agent_id", .str p.agent_id), ("status", .str p.status),
     ("pricing", p.pricing.toJ)]
  | .TaskAssign p =>
    [("task_id", .str p.task_id), ("job_id", .str p.job_id),
     ("priority", .num p.priority),
     ("estimated_duration_sec", .num p.estimated_duration_sec),
     ("requirements", taskRequirementsToJ p.requirements),
     ("payload", p.payload.toJ), ("pricing", p.pricing.toJ)]
  | .TaskAccept p =>
    [("task_id", .str p.task_id), ("agent_id", .str p.agent_id),
     ("gpu_allocated", .num p.gpu_allocated),
     ("estimated_completion", .time p.estimated_completion)]
  | .TaskReject p =>
    [("task_id", .str p.task_id), ("reason", .str p.reason),
     ("details", .str p.details)]
  | .TaskProgress p =>
    [("task_id", .str p.task_id), ("progress", .num p.progress),
     ("stage", .str p.stage), ("metrics", p.metrics.toJ),
     ("timestamp", .time p.timestamp)]
  | .TaskComplete p =>
    [("task_id", .str p.task_id), ("result", p.result.toJ),
     ("proof_of_work", p.proof_of_work.toJ), ("metrics", p.metrics.toJ)]
  | .TaskFailed p =>
    [("task_id", .str p.task_id), ("error", p.error.toJ),
     ("partial_results", optJ JValue.str p.partial_results)]
  | .Heartbeat p =>
    [("agent_id", .str p.agent_id), ("status", .str p.status.tag),
     ("current_task_id", optJ JValue.str p.current_task_id),
     ("gpu_status", .arr (p.gpu_status.map GPUStatus.toJ)),
     ("uptime_sec", .num p.uptime_sec), ("timestamp", .time p.timestamp)]
  | .MetricsBatch p =>
    [("agent_id", .str p.agent_id), ("time_range", p.time_range.toJ),
     ("aggregated_metrics", p.aggregated_metrics.toJ)]
  | .EarningsRecord p =>
    [("task_id", .str p.task_id), ("earnings", earningsDetailToJ p.earnings),
     ("status", .str (earningStatusTag p.status)),
     ("estimated_payout_date", .str p.estimated_payout_date)]
  | .PayoutNotification p =>
    [("payout_id", .str p.payout_id), ("period", p.period.toJ),
     ("summary", p.summary.toJ), ("payment_method", .str p.payment_method),
     ("payment_address", .str p.payment_address),
     ("status", .str p.status.tag)]
  | .PowChallenge p =>
    [("challenge_id", .str p.challenge_id), ("nonce", .str p.nonce),
     ("difficulty", .num p.difficulty), ("deadline", .time p.deadline)]
  | .PowResponse p =>
    [("challenge_id", .str p.challenge_id), ("response", .str p.response),
     ("computation_time_ms", .num p.computation_time_ms),
     ("gpu_signature", p.gpu_signature.toJ)]
  | .Error p =>
    [("code", .str p.code), ("message", .str p.message),
     ("context", optJ id p.context), ("recoverable", .bool p.recoverable)]
  | .StateSync p =>
    [("agent_id", .str p.agent_id), ("last_heartbeat", .time p.last_heartbeat),
     ("active_tasks", .arr (p.active_tasks.map ActiveTaskInfo.toJ))]

/-- `Message::to_json` (the `Serialize` derive): the three envelope fields in
declaration order, then — through `#[serde(flatten)]` — the payload's fields
spliced into the same object.  Nothing deduplicates keys, so a payload with
its own `timestamp` field yields a second `"timestamp"` entry. -/
def to_json (m : Message) : JValue :=
  .obj ([("message_id", .str m.message_id), ("timestamp", .time m.timestamp),
    ("type", .str m.message_type.tag)] ++ payload_entries m.payload)

end Proto

namespace Proto

/-! ### Deserialization (`Message::from_json`)

Derived struct deserialization from buffered content: a required field must be
present with the right shape, an `Option` field defaults to `None` when absent
or `null`, and unknown fields are ignored.  The untagged `MessagePayload`
tries its variants in declaration order and keeps the first that parses. -/

/-- First value under a key (struct field lookup in the buffered content). -/
def field? (entries : List (String × JValue)) (k : String) : Option JValue :=
  (entries.find? (fun e => e.1 == k)).map (fun e => e.2)

/-- A JSON string. -/
def as_str : JValue → Option String
  | .str s => some s
  | _ => none

/-- An RFC-3339 timestamp string (see the `JValue.time` abstraction). -/
def as_time : JValue → Option Int
  | .time t => some t
  | _ => none

/-- A `rust_decimal::Decimal` in its string serialization. -/
def as_dec : JValue → Option ℚ
  | .dec d => some d
  | _ => none

/-- An `f32`/`f64` number. -/
def as_num : JValue → Option ℚ
  | .num q => some q
  | _ => none

/-- An unsigned integer number below `2^w`. -/
def as_uint (w : Nat) : JValue → Option Nat
  | .num q => if q.den = 1 ∧ 0 ≤ q.num ∧ q.num < 2 ^ w then some q.num.toNat else none
  | _ => none

/-- A JSON boolean. -/
def as_bool : JValue → Option Bool
  | .bool b => some b
  | _ => none

/-- A JSON array. -/
def as_arr : JValue → Option (List JValue)
  | .arr xs => some xs
  | _ => none

/-- A required struct field. -/
def req_field (entries : List (String × JValue)) (k : String)
    (p : JValue → Option α) : Option α :=
  (field? entries k).bind p

/-- An `Option` struct field: absent or `null` is `None`. -/
def opt_field (entries : List (String × JValue)) (k : String)
    (p : JValue → Option α) : Option (Option α) :=
  match field? entries k with
  | none => some none
  | some .null => some none
  | some v => (p v).map some

/-- A nested struct value parsed from its own object's entries. -/
def sub_field (entries : List (String × JValue)) (k : String)
    (p : List (String × JValue) → Option α) : Option α :=
  (field? entries k).bind fun v => (as_obj v).bind p
where
  /-- A JSON object's entries. -/
  as_obj : JValue → Option (List (String × JValue))
    | .obj es => some es
    | _ => none

/-- `CPUInfo` from entries. -/
def parseCPUInfo (es : List (String × JValue)) : Option CPUInfo := do
  let model ← req_field es "model" as_str
  let cores ← req_field es "cores" (as_uint 32)
  let threads ← req_field es "threads" (as_uint 32)
  pure ⟨model, cores, threads⟩

/-- `GPUVendor` from a value. -/
def parseGPUVendor (v : JValue) : Option GPUVendor := do
  let s ← as_str v
  if s = "NVIDIA" then pure .NVIDIA
  else if s = "AMD" then pure .AMD
  else if s = "Intel" then pure .Intel
  else if s = "Apple" then pure .Apple
  else none

/-- `GPUInfo` from entries. -/
def parseGPUInfo (es : List (String × JValue)) : Option GPUInfo := do
  let index ← req_field es "index" (as_uint 32)
  let vendor ← req_field es "vendor" parseGPUVendor
  let model ← req_field es "model" as_str
  let vram_gb ← req_field es "vram_gb" (as_uint 32)
  let compute_capability ← req_field es "compute_capability" as_str
  let cuda_cores ← opt_field es "cuda_cores" (as_uint 32)
  let pcie ← req_field es "pcie_bandwidth_gbps" (as_uint 32)
  pure ⟨index, vendor, model, vram_gb, compute_capability, cuda_cores, pcie⟩

/-- A homogeneous array field. -/
def parse_list (p : JValue → Option α) (v : JValue) : Option (List α) :=
  (as_arr v).bind fun xs => xs.mapM p

/-- A nested-struct element. -/
def as_struct (p : List (String × JValue) → Option α) (v : JValue) : Option α :=
  match v with
  | .obj es => p es
  | _ => none

/-- `HardwareInfo` from entries. -/
def parseHardwareInfo (es : List (String × JValue)) : Option HardwareInfo := do
  let gpus ← req_field es "gpus" (parse_list (as_struct parseGPUInfo))
  let cpu ← sub_field es "cpu" parseCPUInfo
  let memory_gb ← req_field es "memory_gb" (as_uint 32)
  let storage ← req_field es "storage_available_gb" (as_uint 32)
  pure ⟨gpus, cpu, memory_gb, storage⟩

/-- `Capabilities` from entries. -/
def parseCapabilities (es : List (String × JValue)) : Option Capabilities := do
  let fw ← req_field es "supported_frameworks" (parse_list as_str)
  let max_batch_size ← req_field es "max_batch_size" (as_uint 32)
  let fp16 ← req_field es "fp16_support" as_bool
  let int8 ← req_field es "int8_support" as_bool
  pure ⟨fw, max_batch_size, fp16, int8⟩

/-- `Availability` from entries. -/
def parseAvailability (es : List (String × JValue)) : Option Availability := do
  let hours ← req_field es "hours_per_day" (as_uint 32)
  let score ← req_field es "reliability_score" as_num
  pure ⟨hours, score⟩

/-- `Location` from entries. -/
def parseLocation (es : List (String × JValue)) : Option Location := do
  let country ← req_field es "country" as_str
  let region ← req_field es "region" as_str
  let latency ← req_field es "latency_to_platform_ms" (as_uint 32)
  pure ⟨country, region, latency⟩

/-- `TaskRequirements` from entries. -/
def parseTaskRequirements (es : List (String × JValue)) :
    Option Gpu.TaskRequirements := do
  let min_vram_gb ← req_field es "min_vram_gb" (as_uint 32)
  let min_cc ← req_field es "min_compute_capability" as_str
  let framework ← req_field es "framework" as_str
  let fp16 ← req_field es "fp16" as_bool
  pure ⟨min_vram_gb, min_cc, framework, fp16⟩

/-- `TaskPayload` from entries. -/
def parseTaskPayload (es : List (String × JValue)) : Option TaskPayload := do
  let model_url ← req_field es "model_url" as_str
  let model_hash ← req_field es "model_hash" as_str
  let input_data_url ← req_field es "input_data_url" as_str
  let output_url ← req_field es "output_url" as_str
  let config ← field? es "config"
  pure ⟨model_url, model_hash, input_data_url, output_url, config⟩

/-- `Pricing` from entries. -/
def parsePricing (es : List (String × JValue)) : Option Pricing := do
  let base ← req_field es "base_rate_usd_per_hour" as_dec
  let mult ← req_field es "gpu_multiplier" as_dec
  let eff ← req_field es "effective_rate" as_dec
  pure ⟨base, mult, eff⟩

/-- `TaskResult` from entries. -/
def parseTaskResult (es : List (String × JValue)) : Option TaskResult := do
  let output_url ← req_field es "output_url" as_str
  let output_hash ← req_field es "output_hash" as_str
  let exec ← req_field es "execution_time_sec" (as_uint 32)
  let gpu ← req_field es "gpu_time_sec" (as_uint 32)
  pure ⟨output_url, output_hash, exec, gpu⟩

/-- `ProofOfWork` from entries. -/
def parseProofOfWork (es : List (String × JValue)) : Option ProofOfWork := do
  let method ← req_field es "method" as_str
  let challenge_id ← req_field es "challenge_id" as_str
  let response ← req_field es "response" (parse_list (as_uint 8))
  let gpu_signature ← req_field es "gpu_signature" as_str
  pure ⟨method, challenge_id, response, gpu_signature⟩

/-- `ExecutionMetrics` from entries. -/
def parseExecutionMetrics (es : List (String × JValue)) :
    Option ExecutionMetrics := do
  let avg ← req_field es "avg_gpu_utilization" as_num
  let peak ← req_field es "peak_memory_gb" as_num
  let energy ← req_field es "energy_kwh" as_num
  pure ⟨avg, peak, energy⟩

/-- `GPUStatus` from entries. -/
def parseGPUStatus (es : List (String × JValue)) : Option GPUStatus := do
  let index ← req_field es "index" (as_uint 32)
  let utilization ← req_field es "utilization" as_num
  let memory_used_gb ← req_field es "memory_used_gb" as_num
  let memory_total_gb ← req_field es "memory_total_gb" as_num
  let temperature_c ← req_field es "temperature_c" as_num
  let power_draw_w ← req_field es "power_draw_w" as_num
  let fan ← req_field es "fan_speed_percent" as_num
  pure ⟨index, utilization, memory_used_gb, memory_total_gb, temperature_c,
    power_draw_w, fan⟩

/-- `TaskMetrics` from entries. -/
def parseTaskMetrics (es : List (String × JValue)) : Option TaskMetrics := do
  let gpu_utilization ← req_field es "gpu_utilization" as_num
  let memory_used_gb ← req_field es "memory_used_gb" as_num
  let throughput ← opt_field es "throughput_tokens_per_sec" as_num
  pure ⟨gpu_utilization, memory_used_gb, throughput⟩

/-- `TaskErrorInfo` from entries. -/
def parseTaskErrorInfo (es : List (String × JValue)) : Option TaskErrorInfo := do
  let code ← req_field es "code" as_str
  let message ← req_field es "message" as_str
  let details ← req_field es "details" as_str
  pure ⟨code, message, details⟩

/-- `TimeRange` from entries. -/
def parseTimeRange (es : List (String × JValue)) : Option TimeRange := do
  let start ← req_field es "start" as_time
  let end_ ← req_field es "end" as_time
  pure ⟨start, end_⟩

/-- `AggregatedMetrics` from entries. -/
def parseAggregatedMetrics (es : List (String × JValue)) :
    Option AggregatedMetrics := do
  let tasks_completed ← req_field es "tasks_completed" (as_uint 32)
  let tasks_failed ← req_field es "tasks_failed" (as_uint 32)
  let total_gpu_hours ← req_field es "total_gpu_hours" as_num
  let avg ← req_field es "avg_gpu_utilization" as_num
  let total_energy ← req_field es "total_energy_kwh" as_num
  let earnings_usd ← req_field es "earnings_usd" as_dec
  pure ⟨tasks_completed, tasks_failed, total_gpu_hours, avg, total_energy,
    earnings_usd⟩

/-- `EarningsDetail` from entries. -/
def parseEarningsDetail (es : List (String × JValue)) :
    Option Tracker.EarningsDetail := do
  let gpu_hours ← req_field es "gpu_hours" as_num
  let rate ← req_field es "rate_usd_per_hour" as_dec
  let amount ← req_field es "amount_usd" as_dec
  let bonus ← req_field es "bonus_multiplier" as_num
  let final_amount ← req_field es "final_amount_usd" as_dec
  pure ⟨gpu_hours, rate, amount, bonus, final_amount⟩

/-- `EarningStatus` from a value. -/
def parseEarningStatus (v : JValue) : Option Earnings.EarningStatus := do
  let s ← as_str v
  if s = "Pending" then pure .Pending
  else if s = "Confirmed" then pure .Confirmed
  else if s = "Paid" then pure .Paid
  else none

/-- `PayoutStatus` from a value. -/
def parsePayoutStatus (v : JValue) : Option PayoutStatus := do
  let s ← as_str v
  if s = "Processing" then pure .Processing
  else if s = "Completed" then pure .Completed
  else if s = "Failed" then pure .Failed
  else none

/-- `AgentStatus` from a value. -/
def parseAgentStatus (v : JValue) : Option AgentStatus := do
  let s ← as_str v
  if s = "idle" then pure .Idle
  else if s = "working" then pure .Working
  else if s = "error" then pure .Error
  else if s = "offline" then pure .Offline
  else none

/-- `PayoutPeriod` from entries. -/
def parsePayoutPeriod (es : List (String × JValue)) : Option PayoutPeriod := do
  let start ← req_field es "start" as_str
  let end_ ← req_field es "end" as_str
  pure ⟨start, end_⟩

/-- `PayoutSummary` from entries. -/
def parsePayoutSummary (es : List (String × JValue)) : Option PayoutSummary := do
  let total_tasks ← req_field es "total_tasks" (as_uint 32)
  let total_gpu_hours ← req_field es "total_gpu_hours" as_num
  let gross ← req_field es "gross_amount_usd" as_dec
  let fee ← req_field es "platform_fee_usd" as_dec
  let net ← req_field es "net_amount_usd" as_dec
  pure ⟨total_tasks, total_gpu_hours, gross, fee, net⟩

/-- Protocol `GpuSignature` from entries. -/
def parseGpuSignature (es : List (String × JValue)) : Option GpuSignature := do
  let device_uuid ← req_field es "device_uuid" as_str
  let cuda_version ← opt_field es "cuda_version" as_str
  pure ⟨device_uuid, cuda_version⟩

/-- `ActiveTaskInfo` from entries. -/
def parseActiveTaskInfo (es : List (String × JValue)) : Option ActiveTaskInfo := do
  let task_id ← req_field es "task_id" as_str
  let progress ← req_field es "progress" as_num
  let started_at ← req_field es "started_at" as_time
  pure ⟨task_id, progress, started_at⟩

end Proto

namespace Proto

/-- `AuthChallengePayload` from the buffered payload entries. -/
def parseAuthChallenge (es : List (String × JValue)) :
    Option AuthChallengePayload := do
  let challenge ← req_field es "challenge" as_str
  let timestamp ← req_field es "timestamp" (as_uint 64)
  pure ⟨challenge, timestamp⟩

/-- `AuthResponsePayload`. -/
def parseAuthResponse (es : List (String × JValue)) :
    Option AuthResponsePayload := do
  let agent_id ← req_field es "agent_id" as_str
  let signature ← req_field es "signature" as_str
  let public_key ← req_field es "public_key" as_str
  pure ⟨agent_id, signature, public_key⟩

/-- `AuthSuccessPayload`. -/
def parseAuthSuccess (es : List (String × JValue)) :
    Option AuthSuccessPayload := do
  let jwt_token ← req_field es "jwt_token" as_str
  let expires_in ← req_field es "expires_in" (as_uint 64)
  pure ⟨jwt_token, expires_in⟩

/-- `AgentRegisterPayload`. -/
def parseAgentRegister (es : List (String × JValue)) :
    Option AgentRegisterPayload := do
  let agent_id ← req_field es "agent_id" as_str
  let hardware ← sub_field es "hardware" parseHardwareInfo
  let capabilities ← sub_field es "capabilities" parseCapabilities
  let location ← sub_field es "location" parseLocation
  let availability ← sub_field es "availability" parseAvailability
  pure ⟨agent_id, hardware, capabilities, location, availability⟩

/-- `RegisterAckPayload`. -/
def parseRegisterAck (es : List (String × JValue)) :
    Option RegisterAckPayload := do
  let agent_id ← req_field es "agent_id" as_str
  let status ← req_field es "status" as_str
  let pricing ← sub_field es "pricing" parsePricing
  pure ⟨agent_id, status, pricing⟩

/-- `TaskAssignPayload`. -/
def parseTaskAssign (es : List (String × JValue)) :
    Option TaskAssignPayload := do
  let task_id ← req_field es "task_id" as_str
  let job_id ← req_field es "job_id" as_str
  let priority ← req_field es "priority" (as_uint 32)
  let dur ← req_field es "estimated_duration_sec" (as_uint 32)
  let requirements ← sub_field es "requirements" parseTaskRequirements
  let payload ← sub_field es "payload" parseTaskPayload
  let pricing ← sub_field es "pricing" parsePricing
  pure ⟨task_id, job_id, priority, dur, requirements, payload, pricing⟩

/-- `TaskAcceptPayload`. -/
def parseTaskAccept (es : List (String × JValue)) :
    Option TaskAcceptPayload := do
  let task_id ← req_field es "task_id" as_str
  let agent_id ← req_field es "agent_id" as_str
  let gpu_allocated ← req_field es "gpu_allocated" (as_uint 32)
  let estimated_completion ← req_field es "estimated_completion" as_time
  pure ⟨task_id, agent_id, gpu_allocated, estimated_completion⟩

/-- `TaskRejectPayload`. -/
def parseTaskReject (es : List (String × JValue)) :
    Option TaskRejectPayload := do
  let task_id ← req_field es "task_id" as_str
  let reason ← req_field es "reason" as_str
  let details ← req_field es "details" as_str
  pure ⟨task_id, reason, details⟩

/-- `TaskProgressPayload`. -/
def parseTaskProgress (es : List (String × JValue)) :
    Option TaskProgressPayload := do
  let task_id ← req_field es "task_id" as_str
  let progress ← req_field es "progress" as_num
  let stage ← req_field es "stage" as_str
  let metrics ← sub_field es "metrics" parseTaskMetrics
  let timestamp ← req_field es "timestamp" as_time
  pure ⟨task_id, progress, stage, metrics, timestamp⟩

/-- `TaskCompletePayload`. -/
def parseTaskComplete (es : List (String × JValue)) :
    Option TaskCompletePayload := do
  let task_id ← req_field es "task_id" as_str
  let result ← sub_field es "result" parseTaskResult
  let proof_of_work ← sub_field es "proof_of_work" parseProofOfWork
  let metrics ← sub_field es "metrics" parseExecutionMetrics
  pure ⟨task_id, result, proof_of_work, metrics⟩

/-- `TaskFailedPayload`. -/
def parseTaskFailed (es : List (String × JValue)) :
    Option TaskFailedPayload := do
  let task_id ← req_field es "task_id" as_str
  let error ← sub_field es "error" parseTaskErrorInfo
  let partial_results ← opt_field es "partial_results" as_str
  pure ⟨task_id, error, partial_results⟩

/-- `HeartbeatPayload`. -/
def parseHeartbeat (es : List (String × JValue)) :
    Option HeartbeatPayload := do
  let agent_id ← req_field es "agent_id" as_str
  let status ← req_field es "status" parseAgentStatus
  let current_task_id ← opt_field es "current_task_id" as_str
  let gpu_status ← req_field es "gpu_status" (parse_list (as_struct parseGPUStatus))
  let uptime_sec ← req_field es "uptime_sec" (as_uint 64)
  let timestamp ← req_field es "timestamp" as_time
  pure ⟨agent_id, status, current_task_id, gpu_status, uptime_sec, timestamp⟩

/-- `MetricsBatchPayload`. -/
def parseMetricsBatch (es : List (String × JValue)) :
    Option MetricsBatchPayload := do
  let agent_id ← req_field es "agent_id" as_str
  let time_range ← sub_field es "time_range" parseTimeRange
  let aggregated_metrics ← sub_field es "aggregated_metrics" parseAggregatedMetrics
  pure ⟨agent_id, time_range, aggregated_metrics⟩

/-- `EarningsRecordPayload`. -/
def parseEarningsRecord (es : List (String × JValue)) :
    Option EarningsRecordPayload := do
  let task_id ← req_field es "task_id" as_str
  let earnings ← sub_field es "earnings" parseEarningsDetail
  let status ← req_field es "status" parseEarningStatus
  let estimated_payout_date ← req_field es "estimated_payout_date" as_str
  pure ⟨task_id, earnings, status, estimated_payout_date⟩

/-- `PayoutNotificationPayload`. -/
def parsePayoutNotification (es : List (String × JValue)) :
    Option PayoutNotificationPayload := do
  let payout_id ← req_field es "payout_id" as_str
  let period ← sub_field es "period" parsePayoutPeriod
  let summary ← sub_field es "summary" parsePayoutSummary
  let payment_method ← req_field es "payment_method" as_str
  let payment_address ← req_field es "payment_address" as_str
  let status ← req_field es "status" parsePayoutStatus
  pure ⟨payout_id, period, summary, payment_method, payment_address, status⟩

/-- `PowChallengePayload`. -/
def parsePowChallenge (es : List (String × JValue)) :
    Option PowChallengePayload := do
  let challenge_id ← req_field es "challenge_id" as_str
  let nonce ← req_field es "nonce" as_str
  let difficulty ← req_field es "difficulty" (as_uint 32)
  let deadline ← req_field es "deadline" as_time
  pure ⟨challenge_id, nonce, difficulty, deadline⟩

/-- `PowResponsePayload`. -/
def parsePowResponse (es : List (String × JValue)) :
    Option PowResponsePayload := do
  let challenge_id ← req_field es "challenge_id" as_str
  let response ← req_field es "response" as_str
  let computation_time_ms ← req_field es "computation_time_ms" (as_uint 32)
  let gpu_signature ← sub_field es "gpu_signature" parseGpuSignature
  pure ⟨challenge_id, response, computation_time_ms, gpu_signature⟩

/-- `ErrorPayload`. -/
def parseErrorPayload (es : List (String × JValue)) : Option ErrorPayload := do
  let code ← req_field es "code" as_str
  let message ← req_field es "message" as_str
  let context ← opt_field es "context" some
  let recoverable ← req_field es "recoverable" as_bool
  pure ⟨code, message, context, recoverable⟩

/-- `StateSyncPayload`. -/
def parseStateSync (es : List (String × JValue)) : Option StateSyncPayload := do
  let agent_id ← req_field es "agent_id" as_str
  let last_heartbeat ← req_field es "last_heartbeat" as_time
  let active_tasks ← req_field es "active_tasks"
    (parse_list (as_struct parseActiveTaskInfo))
  pure ⟨agent_id, last_heartbeat, active_tasks⟩

/-- First successful parse in a list of attempts (the untagged rule: variants
are tried in order, first success wins). -/
def first_some : List (Option MessagePayload) → Option MessagePayload
  | [] => none
  | some p :: _ => some p
  | none :: rest => first_some rest

/-- Untagged deserialization of `MessagePayload`: the variants are tried in
declaration order on the buffered content and the first success wins. -/
def payload_parse (es : List (String × JValue)) : Option MessagePayload :=
  first_some
    [(parseAuthChallenge es).map MessagePayload.AuthChallenge,
     (parseAuthResponse es).map MessagePayload.AuthResponse,
     (parseAuthSuccess es).map MessagePayload.AuthSuccess,
     (parseAgentRegister es).map MessagePayload.AgentRegister,
     (parseRegisterAck es).map MessagePayload.RegisterAck,
     (parseTaskAssign es).map MessagePayload.TaskAssign,
     (parseTaskAccept es).map MessagePayload.TaskAccept,
     (parseTaskReject es).map MessagePayload.TaskReject,
     (parseTaskProgress es).map MessagePayload.TaskProgress,
     (parseTaskComplete es).map MessagePayload.TaskComplete,
     (parseTaskFailed es).map MessagePayload.TaskFailed,
     (parseHeartbeat es).map MessagePayload.Heartbeat,
     (parseMetricsBatch es).map MessagePayload.MetricsBatch,
     (parseEarningsRecord es).map MessagePayload.EarningsRecord,
     (parsePayoutNotification es).map MessagePayload.PayoutNotification,
     (parsePowChallenge es).map MessagePayload.PowChallenge,
     (parsePowResponse es).map MessagePayload.PowResponse,
     (parseErrorPayload es).map MessagePayload.Error,
     (parseStateSync es).map MessagePayload.StateSync]

/-- The generated `visit_map` of `Message`'s `Deserialize` with a flattened
field: walk the entries in order; each of the three named envelope fields is
captured once and raises `duplicate field …` on a second occurrence; every
other entry is buffered (in order) for the payload. -/
def scan_envelope : List (String × JValue) → Option JValue → Option JValue →
    Option JValue → List (String × JValue) →
    Except String (JValue × JValue × JValue × List (String × JValue))
  | [], mid, ts, ty, acc =>
    match mid, ts, ty with
    | some m, some t, some y => .ok (m, t, y, acc.reverse)
    | none, _, _ => .error "missing field message_id"
    | _, none, _ => .error "missing field timestamp"
    | _, _, none => .error "missing field type"
  | (k, v) :: rest, mid, ts, ty, acc =>
    if k = "message_id" then
      match mid with
      | some _ => .error "duplicate field message_id"
      | none => scan_envelope rest (some v) ts ty acc
    else if k = "timestamp" then
      match ts with
      | some _ => .error "duplicate field timestamp"
      | none => scan_envelope rest mid (some v) ty acc
    else if k = "type" then
      match ty with
      | some _ => .error "duplicate field type"
      | none => scan_envelope rest mid ts (some v) acc
    else scan_envelope rest mid ts ty ((k, v) :: acc)

/-- `Message::from_json` (the `Deserialize` derive): the value must be an
object; the envelope scan captures `message_id`/`timestamp`/`type` (failing on
duplicates); the leftover entries feed the untagged payload. -/
def from_json (j : JValue) : Except String Message :=
  match j with
  | .obj entries =>
    match scan_envelope entries none none none [] with
    | .error e => .error e
    | .ok (midv, tsv, tyv, rest) =>
      match as_str midv, as_time tsv, (as_str tyv).bind MessageType.parse? with
      | some message_id, some timestamp, some message_type =>
        match payload_parse rest with
        | some payload => .ok ⟨message_id, timestamp, message_type, payload⟩
        | none => .error "data did not match any variant of untagged enum MessagePayload"
      | _, _, _ => .error "invalid envelope field"
  | _ => .error "invalid type: expected a JSON object"

end Proto

/-- Decidable equality for `Except` results (missing upstream), so that
concrete runs of the fallible embedded functions can be checked by `decide`. -/
instance {ε α : Type} [DecidableEq ε] [DecidableEq α] : DecidableEq (Except ε α) :=
  fun x y =>
    match x, y with
    | .ok a, .ok b =>
      if h : a = b then isTrue (by rw [h]) else isFalse (by simp [h])
    | .error a, .error b =>
      if h : a = b then isTrue (by rw [h]) else isFalse (by simp [h])
    | .ok _, .error _ => isFalse (by simp)
    | .error _, .ok _ => isFalse (by simp)

/-! ## Theorems -/

namespace Reconnect

/-- State of the strategy after `n` delay calls: the configuration is
untouched and the counter advances, saturating at `max_retries`. -/
theorem iterate_calls_state (n : Nat) (s : ReconnectStrategy)
    (h : s.current_attempt ≤ s.max_retries) :
    iterate_calls n s =
      { s with current_attempt := min (s.current_attempt + n) s.max_retries } := by
  induction n generalizing s with
  | zero => simp [iterate_calls, Nat.min_eq_left h]
  | succ n ih =>
    rw [iterate_calls]
    rcases Nat.lt_or_ge s.current_attempt s.max_retries with hlt | hge
    · have : (next_delay s).2 = { s with current_attempt := s.current_attempt + 1 } := by
        simp [next_delay, Nat.not_le.mpr hlt]
      rw [this, ih _ (by simpa using hlt)]
      simp [Nat.add_assoc, Nat.add_comm 1 n]
    · have heq : s.current_attempt = s.max_retries := Nat.le_antisymm h hge
      have : (next_delay s).2 = s := by
        simp [next_delay, hge]
      rw [this, ih _ h]
      simp [heq, Nat.min_eq_right (Nat.le_add_right _ _)]

end Reconnect

/-- Claim C7 — starting from a fresh `ReconnectStrategy`, the `n`-th
`next_delay` call (`n = 0, 1, …`) yields `min(1 · 2^n, 300)` seconds for the
first 10 calls (the sequence 1, 2, 4, …, 256, 300), no delay is produced from
the 10th consecutive failure on, and a reset (what `retry` performs on any
success) makes the next delay 1 second again. -/
theorem c7_reconnect_backoff :
    (∀ n, n < 10 →
      (Reconnect.next_delay
        (Reconnect.iterate_calls n Reconnect.ReconnectStrategy.new)).1 =
          some (min (1 * 2 ^ n) 300)) ∧
    (∀ n, 10 ≤ n →
      (Reconnect.next_delay
        (Reconnect.iterate_calls n Reconnect.ReconnectStrategy.new)).1 = none) ∧
    (∀ n, (Reconnect.next_delay
      (Reconnect.reset (Reconnect.iterate_calls n Reconnect.ReconnectStrategy.new))).1 =
        some 1) := by
  have hstate : ∀ n, Reconnect.iterate_calls n Reconnect.ReconnectStrategy.new =
      { max_retries := 10, base_delay_secs := 1, max_delay_secs := 300,
        current_attempt := min n 10 } := by
    intro n
    have := Reconnect.iterate_calls_state n Reconnect.ReconnectStrategy.new
      (by simp [Reconnect.ReconnectStrategy.new])
    simpa [Reconnect.ReconnectStrategy.new] using this
  refine ⟨fun n hn => ?_, fun n hn => ?_, fun n => ?_⟩
  · rw [hstate]
    have hmin : min n 10 = n := Nat.min_eq_left (Nat.le_of_lt hn)
    simp [Reconnect.next_delay, hmin, Nat.not_le.mpr hn]
  · rw [hstate]
    have hmin : min n 10 = 10 := Nat.min_eq_right hn
    simp [Reconnect.next_delay, hmin]
  · rw [hstate]
    simp [Reconnect.next_delay, Reconnect.reset]

/-- Witness for C7 at concrete inputs: the 10th delay (call index 9) is the
capped 300 s, the 11th call yields no delay, and after a reset the next delay
is 1 s. -/
theorem c7_reconnect_backoff_witness :
    (Reconnect.next_delay
      (Reconnect.iterate_calls 9 Reconnect.ReconnectStrategy.new)).1 = some 300 ∧
    (Reconnect.next_delay
      (Reconnect.iterate_calls 10 Reconnect.ReconnectStrategy.new)).1 = none ∧
    (Reconnect.next_delay
      (Reconnect.reset (Reconnect.iterate_calls 10 Reconnect.ReconnectStrategy.new))).1 =
        some 1 := by
  refine ⟨?_, c7_reconnect_backoff.2.1 10 (by decide), c7_reconnect_backoff.2.2 10⟩
  have h := c7_reconnect_backoff.1 9 (by decide)
  simpa using h

/-- Claim C10 — `GPUMonitor::are_all_idle` is `false` whenever the sampled
status vector is empty (no devices, or every telemetry query failed), and is
`true` exactly when at least one status was sampled and every sampled
utilization is below 0.1; the predicate is not vacuously true on the empty
set. -/
theorem c10_are_all_idle (devices : List (Option Monitor.GPUStatus)) :
    (Monitor.current_status devices = [] → Monitor.are_all_idle devices = false) ∧
    (Monitor.are_all_idle devices = true ↔
      Monitor.current_status devices ≠ [] ∧
        ∀ s ∈ Monitor.current_status devices, s.utilization < (1 / 10 : ℚ)) := by
  constructor
  · intro h
    simp [Monitor.are_all_idle, h]
  · simp [Monitor.are_all_idle, Monitor.is_idle, List.isEmpty_iff,
      List.all_eq_true, decide_eq_true_eq]

/-- Witness for C10: with no devices the predicate is `false`, and with one
sampled idle device (utilization 0.05) plus one failed query it is `true`. -/
theorem c10_are_all_idle_witness :
    Monitor.are_all_idle [] = false ∧
    Monitor.are_all_idle
      [some ⟨"gpu0", Monitor.GpuType.Nvidia, 1 / 20, 2, 8, 65, 150, true⟩,
       none] = true := by
  constructor
  · exact (c10_are_all_idle []).1 rfl
  · refine (c10_are_all_idle _).2.mpr ⟨by simp [Monitor.current_status], ?_⟩
    intro s hs
    simp only [Monitor.current_status, List.filterMap_cons, id] at hs
    simp only [List.filterMap_nil, List.mem_singleton] at hs
    subst hs
    norm_num

/-- Claim C3 (counterexample) — `verify_signature` on a string that is not
valid base64 (here `"!"`) returns `Err(EncryptionError)`, not `Ok(false)` as
the claim states. -/
theorem c3_verify_signature_counterexample :
    Auth.verify_signature (fun _ _ => false) [] "!" = .error .EncryptionError ∧
    Auth.verify_signature (fun _ _ => false) [] "!" ≠ .ok false := by
  decide

/-- Claim C3 (amended) — `verify_signature` never panics, but malformed
signatures are errors, not `false`: invalid base64 or a decode of length ≠ 64
yields `Err(EncryptionError)`; only with a 64-byte decoded signature does it
return `Ok` of the curve verification outcome (so `Ok(false)` means exactly
"well-formed signature that does not verify"). -/
theorem c3_verify_signature_amended (ed25519_verify : List Nat → List Nat → Bool)
    (message : List Nat) (signature : String) :
    (Auth.base64_decode signature = none →
      Auth.verify_signature ed25519_verify message signature = .error .EncryptionError) ∧
    (∀ bs, Auth.base64_decode signature = some bs → bs.length ≠ 64 →
      Auth.verify_signature ed25519_verify message signature = .error .EncryptionError) ∧
    (∀ bs, Auth.base64_decode signature = some bs → bs.length = 64 →
      Auth.verify_signature ed25519_verify message signature =
        .ok (ed25519_verify message bs)) := by
  refine ⟨fun h => ?_, fun bs h hlen => ?_, fun bs h hlen => ?_⟩
  · simp [Auth.verify_signature, h]
  · simp [Auth.verify_signature, h, hlen]
  · simp [Auth.verify_signature, h, hlen]

/-- Witness for C3 (amended): a canonical base64 string decoding to 64 zero
bytes reaches the curve verification and returns its outcome. -/
theorem c3_verify_signature_amended_witness :
    Auth.verify_signature (fun _ _ => true) [1, 2]
      "AAAAAAAAAAAAAAAAAAAAAAAAAAAAAAAAAAAAAAAAAAAAAAAAAAAAAAAAAAAAAAAAAAAAAAAAAAAAAAAAAAAAAA==" =
      .ok true := by
  have h := (c3_verify_signature_amended (fun _ _ => true) [1, 2]
    "AAAAAAAAAAAAAAAAAAAAAAAAAAAAAAAAAAAAAAAAAAAAAAAAAAAAAAAAAAAAAAAAAAAAAAAAAAAAAAAAAAAAAA==").2.2
    (List.replicate 64 0) (by decide) (by decide)
  simpa using h

/-- Claim C4 (counterexample) — with a single 4 GB device and a task requiring
8 GB (no device passes), `select_gpu` does not fail with `InsufficientVRAM` or
`NoGpuFound`: it returns the non-passing device. -/
theorem c4_select_gpu_counterexample :
    Executor.select_gpu [⟨"gpu0", Monitor.GpuType.Nvidia, 4, none⟩]
        ⟨"t1", ⟨8, none, none⟩⟩ =
      .ok ⟨"gpu0", Monitor.GpuType.Nvidia, 4, none⟩ ∧
    Executor.gpu_matches ⟨"t1", ⟨8, none, none⟩⟩
      ⟨"gpu0", Monitor.GpuType.Nvidia, 4, none⟩ = false := by
  decide

/-- Claim C4 (amended) — on an empty GPU vector `select_gpu` fails with
`NoGpuFound`; on a non-empty vector it never fails: it returns the first
device with enough total VRAM and a matching type preference, and falls back
to the first device of the vector when no device passes.  Insufficient VRAM on
the selected device is only caught afterwards by `validate_task`, which fails
with `InvalidTask` (not `InsufficientVRAM`). -/
theorem c4_select_gpu_amended (gpus : List Executor.GPUDevice)
    (task : Executor.Task) :
    (gpus = [] → Executor.select_gpu gpus task = .error .NoGpuFound) ∧
    (∀ g0 rest, gpus = g0 :: rest →
      Executor.select_gpu gpus task =
        .ok ((gpus.find? (Executor.gpu_matches task)).getD g0) ∧
      ((∀ d ∈ gpus, Executor.gpu_matches task d = false) →
        Executor.select_gpu gpus task = .ok g0)) ∧
    (∀ gpu : Executor.GPUDevice,
      gpu.total_memory_gb < task.requirements.vram_gb →
      Executor.validate_task task gpu = .error .InvalidTask) := by
  refine ⟨fun h => ?_, fun g0 rest h => ⟨?_, fun hnone => ?_⟩, fun gpu h => ?_⟩
  · subst h; rfl
  · subst h
    unfold Executor.select_gpu
    cases hf : List.find? (Executor.gpu_matches task) (g0 :: rest) <;> simp [hf]
  · subst h
    have hf : List.find? (Executor.gpu_matches task) (g0 :: rest) = none :=
      List.find?_eq_none.mpr fun x hx => by simp [hnone x hx]
    unfold Executor.select_gpu
    simp [hf]
  · simp [Executor.validate_task, h]

/-- Witness for C4 (amended): a passing device is selected, and a 4 GB device
fails validation against an 8 GB requirement with `InvalidTask`. -/
theorem c4_select_gpu_amended_witness :
    Executor.select_gpu [⟨"gpu0", Monitor.GpuType.Nvidia, 24, none⟩]
        ⟨"t1", ⟨8, none, none⟩⟩ =
      .ok ⟨"gpu0", Monitor.GpuType.Nvidia, 24, none⟩ ∧
    Executor.validate_task ⟨"t1", ⟨8, none, none⟩⟩
      ⟨"gpu0", Monitor.GpuType.Nvidia, 4, none⟩ = .error .InvalidTask := by
  constructor
  · have h := ((c4_select_gpu_amended
      [⟨"gpu0", Monitor.GpuType.Nvidia, 24, none⟩] ⟨"t1", ⟨8, none, none⟩⟩).2.1
      ⟨"gpu0", Monitor.GpuType.Nvidia, 24, none⟩ [] rfl).1
    rw [h]
    decide
  · exact (c4_select_gpu_amended [] ⟨"t1", ⟨8, none, none⟩⟩).2.2
      ⟨"gpu0", Monitor.GpuType.Nvidia, 4, none⟩ (by norm_num)

namespace Tracker

/-- When `confirm_list` reports no moved amount it left the history unchanged
(either no record matched the task id, or the first match was not `Pending`). -/
theorem confirm_list_none (l : List EarningRecord) (task_id : String)
    (h : (confirm_list l task_id).2 = none) : (confirm_list l task_id).1 = l := by
  induction l with
  | nil => rfl
  | cons r rest ih =>
    by_cases hid : r.task_id = task_id
    · by_cases hst : r.status = Earnings.EarningStatus.Pending
      · simp [confirm_list, hid, hst] at h
      · simp [confirm_list, hid, hst]
    · simp only [confirm_list, hid, if_false] at h ⊢
      simp only [ih h]

/-- When `confirm_list` moves an amount `a`, exactly one record changed from
`Pending` to `Confirmed` with amount `a`: the confirmed-or-paid sum grows by
`a` and the pending sum shrinks by `a`. -/
theorem confirm_list_some (l : List EarningRecord) (task_id : String)
    (l' : List EarningRecord) (a : ℚ)
    (h : confirm_list l task_id = (l', some a)) :
    sum_confirmed_paid l' = sum_confirmed_paid l + a ∧
      sum_pending l' = sum_pending l - a := by
  induction l generalizing l' with
  | nil => simp [confirm_list] at h
  | cons r rest ih =>
    by_cases hid : r.task_id = task_id
    · by_cases hst : r.status = Earnings.EarningStatus.Pending
      · rw [confirm_list, if_pos hid, if_pos hst] at h
        rw [Prod.mk.injEq] at h
        obtain ⟨hl, ha⟩ := h
        cases Option.some.inj ha
        subst hl
        constructor
        · simp [sum_confirmed_paid, List.filter_cons, hst]
          ring
        · simp [sum_pending, List.filter_cons, hst]
      · rw [confirm_list, if_pos hid, if_neg hst] at h
        rw [Prod.mk.injEq] at h
        exact absurd h.2 (by simp)
    · rw [confirm_list, if_neg hid] at h
      rcases hrec : confirm_list rest task_id with ⟨rest', m⟩
      rw [hrec] at h
      rw [Prod.mk.injEq] at h
      obtain ⟨hl, hm⟩ := h
      subst hl
      subst hm
      obtain ⟨h1, h2⟩ := ih rest' hrec
      constructor
      · by_cases hp : r.status = Earnings.EarningStatus.Confirmed ∨
            r.status = Earnings.EarningStatus.Paid
        · simp [sum_confirmed_paid, List.filter_cons, hp] at h1 ⊢
          rw [h1]; ring
        · simp [sum_confirmed_paid, List.filter_cons, hp] at h1 ⊢
          rw [h1]
      · by_cases hp : r.status = Earnings.EarningStatus.Pending
        · simp [sum_pending, List.filter_cons, hp] at h2 ⊢
          rw [h2]; ring
        · simp [sum_pending, List.filter_cons, hp] at h2 ⊢
          rw [h2]

/-- The sums invariant is preserved by every tracker operation. -/
theorem apply_op_invariant (st : EarningsData) (op : Op)
    (h : st.total_earnings = sum_confirmed_paid st.history ∧
      st.pending_earnings = sum_pending st.history) :
    (apply_op st op).total_earnings = sum_confirmed_paid (apply_op st op).history ∧
      (apply_op st op).pending_earnings = sum_pending (apply_op st op).history := by
  obtain ⟨ht, hp⟩ := h
  cases op with
  | record earnings now =>
    constructor
    · simp [apply_op, record_earnings, sum_confirmed_paid, List.filter_append, ht]
    · simp [apply_op, record_earnings, sum_pending, List.filter_append, hp]
  | confirm task_id =>
    rcases hrec : confirm_list st.history task_id with ⟨history', m⟩
    cases m with
    | none =>
      have hsame : history' = st.history := by
        have := confirm_list_none st.history task_id (by rw [hrec])
        rwa [hrec] at this
      subst hsame
      simp [apply_op, confirm_earnings, hrec, ht, hp]
    | some a =>
      obtain ⟨h1, h2⟩ := confirm_list_some st.history task_id history' a hrec
      constructor
      · simp [apply_op, confirm_earnings, hrec, h1, ht]
      · simp [apply_op, confirm_earnings, hrec, h2, hp]

end Tracker

/-- Claim C1 (amended) — for `agent/core`'s `EarningsTracker::get_data`, over
any record vector: `total_earnings` is the sum of *all* record amounts
(whatever their status — not only `Confirmed`/`Paid` as the claim states),
`pending_earnings` is the sum over `Pending` records, and `today_earnings` is
the sum over records dated today.  For `agent-core`'s stateful tracker, every
sequence of record/confirm operations from the empty history maintains
`total_earnings = Σ amount(status ∈ {Confirmed, Paid})` and
`pending_earnings = Σ amount(status = Pending)`; `today_earnings` is *not*
maintained by those operations (only `update_today_earnings` writes it). -/
theorem c1_earnings_amended :
    (∀ (records : List EarningsUi.EarningRecord) (today : Int),
      (EarningsUi.get_data records today).total_earnings =
          (records.map (fun r => r.amount)).sum ∧
        (EarningsUi.get_data records today).pending_earnings =
          ((records.filter (fun r => r.status = Earnings.EarningStatus.Pending)).map
            (fun r => r.amount)).sum ∧
        (EarningsUi.get_data records today).today_earnings =
          ((records.filter (fun r => Earnings.date_naive r.timestamp = today)).map
            (fun r => r.amount)).sum) ∧
    (∀ ops : List Tracker.Op,
      (Tracker.run ops).total_earnings =
          Tracker.sum_confirmed_paid (Tracker.run ops).history ∧
        (Tracker.run ops).pending_earnings =
          Tracker.sum_pending (Tracker.run ops).history) := by
  constructor
  · intro records today
    exact ⟨rfl, rfl, rfl⟩
  · intro ops
    rw [Tracker.run]
    induction ops using List.reverseRecOn with
    | nil =>
      simp [Tracker.empty, Tracker.sum_confirmed_paid, Tracker.sum_pending]
    | append_singleton ops op ih =>
      rw [List.foldl_append, List.foldl_cons, List.foldl_nil]
      exact Tracker.apply_op_invariant _ op ih

/-- Claim C1 (counterexample) — a single `Pending` record of amount 1: the
claim says `total = Σ amount(status ∈ {Confirmed, Paid}) = 0`, but `get_data`
reports `total_earnings = 1`.  And after the single record operation (stamped
on day 0), the claim's `today` invariant demands 1, but the tracker's
`today_earnings` is still 0. -/
theorem c1_earnings_counterexample :
    (EarningsUi.get_data
        [⟨"t", "g", 1, 1, 1, Earnings.EarningStatus.Pending, ⟨0, 0⟩⟩]
        0).total_earnings = 1 ∧
    ((([⟨"t", "g", 1, 1, 1, Earnings.EarningStatus.Pending, ⟨0, 0⟩⟩] :
        List EarningsUi.EarningRecord).filter
          (fun r => r.status = Earnings.EarningStatus.Confirmed ∨
            r.status = Earnings.EarningStatus.Paid)).map
        (fun r => r.amount)).sum = 0 ∧
    ((1 : ℚ) = 0 → False) ∧
    (Tracker.run [Tracker.Op.record ⟨1, 1, 1, 1, 1⟩ ⟨0, 0⟩]).today_earnings = 0 ∧
    (((Tracker.run [Tracker.Op.record ⟨1, 1, 1, 1, 1⟩ ⟨0, 0⟩]).history.filter
        (fun r => Earnings.date_naive r.timestamp = 0)).map
      (fun r => r.amount)).sum = 1 := by
  refine ⟨?_, ?_, by norm_num, ?_, ?_⟩
  · simp [EarningsUi.get_data]
  · simp
  · simp [Tracker.run, Tracker.apply_op, Tracker.record_earnings, Tracker.empty]
  · simp [Tracker.run, Tracker.apply_op, Tracker.record_earnings, Tracker.empty,
      Earnings.date_naive]

/-- If `find?` with a weaker predicate returns `m` and `m` also satisfies a
stronger predicate, `find?` with the stronger predicate returns `m` too. -/
theorem find?_of_imp {α : Type} (p q : α → Bool) (xs : List α) (m : α)
    (himp : ∀ d, p d = true → q d = true)
    (hq : xs.find? q = some m) (hp : p m = true) : xs.find? p = some m := by
  induction xs with
  | nil => simp at hq
  | cons z zs ih =>
    by_cases hz : q z = true
    · rw [List.find?_cons_of_pos _ hz] at hq
      cases Option.some.inj hq
      rw [List.find?_cons_of_pos _ hp]
    · rw [List.find?_cons_of_neg _ (by simpa using hz)] at hq
      have hpz : ¬ p z = true := fun h => hz (himp z h)
      rw [List.find?_cons_of_neg _ (by simpa using hpz)]
      exact ih hq

namespace Gpu

/-- Membership through `insert_desc`. -/
theorem mem_insert_desc {x y : GPUDevice} {l : List GPUDevice} :
    y ∈ insert_desc x l ↔ y = x ∨ y ∈ l := by
  induction l with
  | nil => simp [insert_desc]
  | cons z zs ih =>
    by_cases h : z.free ≤ x.free <;> simp [insert_desc, h, ih] <;> tauto

/-- Membership through `sort_desc`. -/
theorem mem_sort_desc {y : GPUDevice} {l : List GPUDevice} :
    y ∈ sort_desc l ↔ y ∈ l := by
  induction l with
  | nil => simp [sort_desc]
  | cons z zs ih => simp [sort_desc, mem_insert_desc, ih]

/-- `insert_desc` never produces the empty list. -/
theorem insert_desc_ne_nil (x : GPUDevice) (l : List GPUDevice) :
    insert_desc x l ≠ [] := by
  cases l with
  | nil => simp [insert_desc]
  | cons z zs =>
    by_cases h : z.free ≤ x.free <;> simp [insert_desc, h]

/-- The head of the stable descending sort is the *first* element of the list
holding the maximum free VRAM — exactly what
`l.find? (fun d => l.all (e.free ≤ d.free))` computes. -/
theorem head?_sort_desc (l : List GPUDevice) :
    (sort_desc l).head? =
      l.find? (fun d => l.all (fun e => e.free ≤ d.free)) := by
  induction l with
  | nil => rfl
  | cons x xs ih =>
    rw [sort_desc]
    cases hxs : sort_desc xs with
    | nil =>
      have hnil : xs = [] := by
        cases xs with
        | nil => rfl
        | cons z zs => exact absurd hxs (by rw [sort_desc]; exact insert_desc_ne_nil z _)
      subst hnil
      simp [insert_desc, List.find?]
    | cons y t =>
      have hy : xs.find? (fun d => xs.all (fun e => e.free ≤ d.free)) = some y := by
        rw [← ih, hxs]; rfl
      have hy_mem : y ∈ xs := List.mem_of_find?_eq_some hy
      have hy_max : xs.all (fun e => e.free ≤ y.free) = true := by
        have h := List.find?_some hy
        simpa using h
      have hy_max' : ∀ e ∈ xs, e.free ≤ y.free := by
        intro e he
        exact of_decide_eq_true (List.all_eq_true.mp hy_max e he)
      by_cases hxy : y.free ≤ x.free
      · have hhead : (insert_desc x (y :: t)).head? = some x := by
          simp [insert_desc, hxy]
        have hPx : ((x :: xs).all (fun e => e.free ≤ x.free)) = true := by
          rw [List.all_cons]
          simp only [Bool.and_eq_true, decide_eq_true_eq]
          exact ⟨le_refl _, List.all_eq_true.mpr fun e he =>
            decide_eq_true (le_trans (hy_max' e he) hxy)⟩
        have hstep := @List.find?_cons_of_pos GPUDevice
          (fun d => (x :: xs).all fun e => e.free ≤ d.free) x xs hPx
        rw [hhead, hstep]
      · have hhead : (insert_desc x (y :: t)).head? = some y := by
          simp [insert_desc, hxy]
        have hxlt : x.free < y.free := Nat.lt_of_not_le hxy
        have hxfail : ¬ ((x :: xs).all (fun e => e.free ≤ x.free)) = true := by
          intro hall
          have := of_decide_eq_true (List.all_eq_true.mp hall y (by simp [hy_mem]))
          omega
        have hstep := @List.find?_cons_of_neg GPUDevice
          (fun d => (x :: xs).all fun e => e.free ≤ d.free) x xs hxfail
        rw [hhead, hstep]
        have hPy : ((x :: xs).all (fun e => e.free ≤ y.free)) = true := by
          rw [List.all_cons]
          simp only [Bool.and_eq_true, decide_eq_true_eq]
          exact ⟨le_of_lt hxlt, hy_max⟩
        have himp : ∀ d : GPUDevice, ((x :: xs).all (fun e => e.free ≤ d.free)) = true →
            (xs.all (fun e => e.free ≤ d.free)) = true := by
          intro d hd
          rw [List.all_cons] at hd
          simp only [Bool.and_eq_true] at hd
          exact hd.2
        exact (find?_of_imp _ _ xs y himp hy hPy).symm

end Gpu

/-- Claim C8 (amended) — for devices whose telemetry succeeds and
requirements without `u64` overflow (`min_vram_gb < 2^31`),
`meets_requirements` holds iff the device's `vram_gb` value (total bytes in
GB, rounded up) reaches `min_vram_gb`, the free bytes reach the *truncated*
`u64` threshold `min_vram_gb·2^30·8/10` (integer division — not the exact
`0.8 ×` of the claim), and the parsed capability is lexicographically at least
the parsed requirement, where the parse maps any part list other than exactly
two `.`-separated parts to `(0, 0)` and any unparsable *part* to `0` (so
`"7.x"` is `(7, 0)`, not `(0, 0)` as the claim states). -/
theorem c8_meets_requirements_amended (d : Gpu.GPUDevice)
    (req : Gpu.TaskRequirements) (hreq : req.min_vram_gb < 2 ^ 31) :
    Gpu.meets_requirements d req = true ↔
      (req.min_vram_gb ≤ Gpu.vram_gb d ∧
        req.min_vram_gb * 1024 * 1024 * 1024 * 8 / 10 ≤ d.free ∧
        Gpu.pair_lt (Gpu.parse_compute_capability d.compute_capability)
          (Gpu.parse_compute_capability req.min_compute_capability) = false) := by
  have hov : req.min_vram_gb * 1024 * 1024 * 1024 * 8 < 2 ^ 64 := by
    have h1 : req.min_vram_gb * 1024 * 1024 * 1024 * 8 =
        req.min_vram_gb * 2 ^ 33 := by ring
    have h2 : (2 : ℕ) ^ 31 * 2 ^ 33 = 2 ^ 64 := by norm_num
    rw [h1, ← h2]
    exact (Nat.mul_lt_mul_right (by norm_num)).mpr hreq
  simp only [Gpu.meets_requirements]
  rw [Nat.mod_eq_of_lt hov]
  split_ifs with h1 h2 h3
  · simp only [Bool.false_eq_true, false_iff]
    rintro ⟨hle, -, -⟩
    omega
  · simp only [Bool.false_eq_true, false_iff]
    rintro ⟨-, hle, -⟩
    omega
  · simp only [Bool.false_eq_true, false_iff]
    rintro ⟨-, -, hf⟩
    rw [h3] at hf
    cases hf
  · simp only [true_iff]
    refine ⟨Nat.le_of_not_lt h1, Nat.le_of_not_lt h2, ?_⟩
    cases hb : Gpu.pair_lt (Gpu.parse_compute_capability d.compute_capability)
      (Gpu.parse_compute_capability req.min_compute_capability)
    · rfl
    · exact absurd hb h3

/-- Witness for C8 (amended) at the spec's select-best scenario device: a
24 GB device with 20 GB free and capability `"8.6"` passes a 4 GB /
`"7.5"`-capability requirement. -/
theorem c8_meets_requirements_amended_witness :
    Gpu.meets_requirements ⟨0, 24 * 2 ^ 30, 20 * 2 ^ 30, 4 * 2 ^ 30, "8.6"⟩
      ⟨4, "7.5", "pytorch", true⟩ = true := by
  refine (c8_meets_requirements_amended _ _ (by decide)).mpr ⟨?_, ?_, ?_⟩
  · decide
  · decide
  · decide

/-- Claim C8 (counterexample) — two concrete divergences from the claim's
reading.  First: a device reporting capability `"7.x"` against required
`"5.0"` passes in the code (the parse is `(7, 0)`), while the claim's parse
(`(0, 0)`) would fail it.  Second: with `min_vram_gb = 1` and free VRAM of
exactly 858 993 459 bytes the code passes (the `u64` threshold truncates
`2^33/10` down), while the claim's exact `0.8 × 2^30 = 858 993 459.2` bytes
would fail it. -/
theorem c8_meets_requirements_counterexample :
    (Gpu.meets_requirements ⟨0, 8 * 2 ^ 30, 8 * 2 ^ 30, 0, "7.x"⟩
        ⟨1, "5.0", "pytorch", false⟩ = true ∧
      ¬ Gpu.meets_requirements_spec ⟨0, 8 * 2 ^ 30, 8 * 2 ^ 30, 0, "7.x"⟩
        ⟨1, "5.0", "pytorch", false⟩) ∧
    (Gpu.meets_requirements ⟨0, 2 ^ 30, 858993459, 0, "8.0"⟩
        ⟨1, "0.0", "pytorch", false⟩ = true ∧
      ¬ Gpu.meets_requirements_spec ⟨0, 2 ^ 30, 858993459, 0, "8.0"⟩
        ⟨1, "0.0", "pytorch", false⟩) := by
  refine ⟨⟨by decide, ?_⟩, ⟨by decide, ?_⟩⟩
  · rintro ⟨-, -, hcc⟩
    revert hcc
    decide
  · rintro ⟨-, hfree, -⟩
    norm_num [Gpu.vram_gb] at hfree

/-- Claim C9 — `select_best_gpu` returns, among the devices passing
`meets_requirements`, the *first* (lowest position in the detector's device
vector, i.e. lowest index as enumerated) device with maximal free VRAM; when
some device passes, the result passes and has maximal free VRAM among passing
devices; when none passes the result is `None`. -/
theorem c9_select_best_gpu (devices : List Gpu.GPUDevice)
    (req : Gpu.TaskRequirements) :
    (Gpu.select_best_gpu devices req =
      (devices.filter (fun d => Gpu.meets_requirements d req)).find?
        (fun d => (devices.filter (fun d' => Gpu.meets_requirements d' req)).all
          (fun e => e.free ≤ d.free))) ∧
    ((∃ d ∈ devices, Gpu.meets_requirements d req = true) →
      ∃ d, Gpu.select_best_gpu devices req = some d ∧
        Gpu.meets_requirements d req = true ∧
        ∀ e ∈ devices, Gpu.meets_requirements e req = true → e.free ≤ d.free) ∧
    ((∀ d ∈ devices, Gpu.meets_requirements d req = false) →
      Gpu.select_best_gpu devices req = none) := by
  refine ⟨Gpu.head?_sort_desc _, ?_, ?_⟩
  · rintro ⟨d0, hd0mem, hd0meets⟩
    have hl : d0 ∈ devices.filter (fun d => Gpu.meets_requirements d req) :=
      List.mem_filter.mpr ⟨hd0mem, hd0meets⟩
    cases hsort : Gpu.sort_desc
        (devices.filter (fun d => Gpu.meets_requirements d req)) with
    | nil =>
      exact absurd (Gpu.mem_sort_desc.mpr hl) (by rw [hsort]; simp)
    | cons m t =>
      have hsel : Gpu.select_best_gpu devices req = some m := by
        simp only [Gpu.select_best_gpu]
        rw [hsort]
        rfl
      have hm_mem : m ∈ devices.filter (fun d => Gpu.meets_requirements d req) :=
        Gpu.mem_sort_desc.mp (by rw [hsort]; simp)
      refine ⟨m, hsel, (List.mem_filter.mp hm_mem).2, ?_⟩
      intro e he hemeets
      have hhead : (Gpu.sort_desc (devices.filter
          (fun d => Gpu.meets_requirements d req))).head? = some m := by
        rw [hsort]
        rfl
      have hfind := (Gpu.head?_sort_desc
        (devices.filter (fun d => Gpu.meets_requirements d req))).symm.trans hhead
      have hall : (devices.filter (fun d' => Gpu.meets_requirements d' req)).all
          (fun e => e.free ≤ m.free) = true := by
        have h := List.find?_some hfind
        exact h
      exact of_decide_eq_true (List.all_eq_true.mp hall e
        (List.mem_filter.mpr ⟨he, hemeets⟩))
  · intro hnone
    have hfil : devices.filter (fun d => Gpu.meets_requirements d req) = [] :=
      List.filter_eq_nil_iff.mpr fun d hd => by simp [hnone d hd]
    simp only [Gpu.select_best_gpu]
    rw [hfil]
    rfl

/-- Witness for C9 at the spec's scenario 4: devices of 8 GB (6 free) and
24 GB (20 free), both passing a 4 GB requirement; selection returns the 24 GB
device. -/
theorem c9_select_best_gpu_witness :
    Gpu.select_best_gpu
        [⟨0, 8 * 2 ^ 30, 6 * 2 ^ 30, 2 * 2 ^ 30, "8.0"⟩,
         ⟨1, 24 * 2 ^ 30, 20 * 2 ^ 30, 4 * 2 ^ 30, "8.0"⟩]
        ⟨4, "5.0", "pytorch", true⟩ =
      some ⟨1, 24 * 2 ^ 30, 20 * 2 ^ 30, 4 * 2 ^ 30, "8.0"⟩ ∧
    Gpu.meets_requirements ⟨1, 24 * 2 ^ 30, 20 * 2 ^ 30, 4 * 2 ^ 30, "8.0"⟩
      ⟨4, "5.0", "pytorch", true⟩ = true := by
  have h2 := (c9_select_best_gpu
    [⟨0, 8 * 2 ^ 30, 6 * 2 ^ 30, 2 * 2 ^ 30, "8.0"⟩,
     ⟨1, 24 * 2 ^ 30, 20 * 2 ^ 30, 4 * 2 ^ 30, "8.0"⟩]
    ⟨4, "5.0", "pytorch", true⟩).2.1
    ⟨⟨1, 24 * 2 ^ 30, 20 * 2 ^ 30, 4 * 2 ^ 30, "8.0"⟩, by decide, by decide⟩
  obtain ⟨m, hm, hmeets, -⟩ := h2
  have hsel : Gpu.select_best_gpu
      [⟨0, 8 * 2 ^ 30, 6 * 2 ^ 30, 2 * 2 ^ 30, "8.0"⟩,
       ⟨1, 24 * 2 ^ 30, 20 * 2 ^ 30, 4 * 2 ^ 30, "8.0"⟩]
      ⟨4, "5.0", "pytorch", true⟩ =
      some ⟨1, 24 * 2 ^ 30, 20 * 2 ^ 30, 4 * 2 ^ 30, "8.0"⟩ := by
    rw [(c9_select_best_gpu _ _).1]
    decide
  rw [hsel] at hm
  exact ⟨hsel, Option.some.inj hm ▸ hmeets⟩

namespace Pow

/-- Masking a byte with `0xFF` is the identity. -/
theorem land_255 : ∀ b < 256, b &&& 255 = b := by decide

/-- A byte passing the partial mask for `0 < d < 8` has at least `d` leading
zero bits. -/
theorem partial_byte_bound : ∀ b < 256, ∀ d < 8, 0 < d →
    b &&& (255 ^^^ (255 >>> d)) = 0 →
    d ≤ (if b = 0 then 8 else byte_leading_zeros b) := by decide

/-- `difficulty_mask` agrees with its byte-by-byte recursion for every
difficulty up to 256. -/
theorem difficulty_mask_eq_mask_rec : ∀ d < 257, difficulty_mask d = mask_rec d 32 := by
  decide

/-- Soundness of the byte-recursive mask: a byte string passing
`check_difficulty` against `mask_rec d n` has at least `d` leading zero bits
(for `d` within the mask's capacity). -/
theorem check_mask_rec_le (n : Nat) : ∀ d (h : List Nat), d ≤ 8 * n →
    h.length = n → (∀ b ∈ h, b < 256) →
    check_difficulty h (mask_rec d n) = true →
    d ≤ leading_zero_bits h := by
  induction n with
  | zero =>
    intro d h hd _ _ _
    omega
  | succ n ih =>
    intro d h hd hlen hbytes hcheck
    match h with
    | [] => simp at hlen
    | b :: rest =>
      have hb : b < 256 := hbytes b (by simp)
      have hrest : ∀ x ∈ rest, x < 256 := fun x hx => hbytes x (by simp [hx])
      have hlen' : rest.length = n := by simpa using hlen
      by_cases h8 : 8 ≤ d
      · have hmask : mask_rec d (n + 1) = 0 :: mask_rec (d - 8) n := by
          rw [mask_rec]
          simp [h8]
        rw [hmask] at hcheck
        simp only [check_difficulty, List.zip_cons_cons, List.all_cons,
          Bool.and_eq_true, beq_iff_eq] at hcheck
        obtain ⟨hb0, hrestcheck⟩ := hcheck
        have hbz : b = 0 := by
          have hx : (255 : Nat) ^^^ 0 = 255 := by decide
          rw [hx, land_255 b hb] at hb0
          exact hb0
        subst hbz
        have htail : d - 8 ≤ leading_zero_bits rest :=
          ih (d - 8) rest (by omega) hlen' hrest hrestcheck
        have hlz : leading_zero_bits (0 :: rest) = 8 + leading_zero_bits rest := by
          simp [leading_zero_bits]
        rw [hlz]
        omega
      · by_cases h0 : 0 < d
        · have hmask : mask_rec d (n + 1) = (255 >>> d) :: List.replicate n 255 := by
            rw [mask_rec]
            simp [h8, h0]
          rw [hmask] at hcheck
          simp only [check_difficulty, List.zip_cons_cons, List.all_cons,
            Bool.and_eq_true, beq_iff_eq] at hcheck
          obtain ⟨hb0, -⟩ := hcheck
          have hbound := partial_byte_bound b hb d (by omega) h0 hb0
          by_cases hbz : b = 0
          · subst hbz
            have hlz : leading_zero_bits (0 :: rest) = 8 + leading_zero_bits rest := by
              simp [leading_zero_bits]
            rw [hlz]
            omega
          · have hlz : leading_zero_bits (b :: rest) = byte_leading_zeros b := by
              simp [leading_zero_bits, hbz]
            rw [hlz]
            simpa [hbz] using hbound
        · omega

end Pow

/-- Claim C6 — for every difficulty `d ≤ 256`, the 32-byte mask `M(d)` has its
first `d / 8` bytes equal to `0x00` and, when `d % 8 > 0`, its next byte equal
to `0xFF >> (d % 8)` (in particular `M(4)[0] = 0x0F`, `M(8) = 0x00, 0xFF, …`,
`M(12) = 0x00, 0x0F, …`); and every 32-byte hash passing
`check_difficulty(h, M(d))` has at least `d` leading zero bits. -/
theorem c6_difficulty_mask (d : Nat) (hd : d ≤ 256) :
    ((Pow.difficulty_mask d).take (d / 8) = List.replicate (d / 8) 0) ∧
    (d % 8 > 0 → (Pow.difficulty_mask d).getD (d / 8) 0 = 255 >>> (d % 8)) ∧
    ((Pow.difficulty_mask 4).getD 0 0 = 0x0F ∧
      (Pow.difficulty_mask 8).getD 0 0 = 0x00 ∧
      (Pow.difficulty_mask 8).getD 1 0 = 0xFF ∧
      (Pow.difficulty_mask 12).getD 0 0 = 0x00 ∧
      (Pow.difficulty_mask 12).getD 1 0 = 0x0F) ∧
    (∀ h : List Nat, h.length = 32 → (∀ b ∈ h, b < 256) →
      Pow.check_difficulty h (Pow.difficulty_mask d) = true →
      d ≤ Pow.leading_zero_bits h) := by
  have hlt : d < 257 := by omega
  have hshape : ∀ e < 257, ((Pow.difficulty_mask e).take (e / 8) =
      List.replicate (e / 8) 0) ∧
      (e % 8 > 0 → (Pow.difficulty_mask e).getD (e / 8) 0 = 255 >>> (e % 8)) := by
    decide
  refine ⟨(hshape d hlt).1, (hshape d hlt).2, by decide, ?_⟩
  intro h hlen hbytes hcheck
  rw [Pow.difficulty_mask_eq_mask_rec d hlt] at hcheck
  exact Pow.check_mask_rec_le 32 d h (by omega) hlen hbytes hcheck

/-- Witness for C6 at `d = 12` and the hash `0x00 0x09 0xFF…`: the check
passes and the hash indeed has 12 leading zero bits; and `M(4)[0] = 0x0F`. -/
theorem c6_difficulty_mask_witness :
    12 ≤ Pow.leading_zero_bits (0 :: 9 :: List.replicate 30 255) ∧
    (Pow.difficulty_mask 4).getD 0 0 = 0x0F := by
  constructor
  · exact (c6_difficulty_mask 12 (by decide)).2.2.2
      (0 :: 9 :: List.replicate 30 255) (by decide) (by decide) (by decide)
  · exact (c6_difficulty_mask 4 (by decide)).2.2.1.1

/-- Claim C2 — any result of `GpuPowComputer::compute` (characterised by the
post-condition `compute_cpu_post` of its CPU search, for any winning thread
and any in-budget timing) passes `GpuPowComputer::verify`; replacing the
response hash by any other byte string makes `verify` return `false`; and
replacing `solution_nonce` by any nonce whose recomputed hash differs from the
posted response (in particular `+1`, barring a SHA-256 collision) makes
`verify` return `false`. -/
theorem c2_pow_compute_verify (c : Pow.PowChallenge) (r : Pow.PowResponse)
    (hpost : Pow.compute_cpu_post c r) (hdiff : c.difficulty ≤ 24) :
    Pow.verify c r = true ∧
    (∀ b : List Nat, b ≠ r.response →
      Pow.verify c { r with response := b } = false) ∧
    (∀ n : Nat, Sha256.sha256 (c.nonce ++ Pow.u64_le_bytes n) ≠ r.response →
      Pow.verify c { r with solution_nonce := n } = false) := by
  obtain ⟨hid, -, hresp, hcheck⟩ := hpost
  rw [hresp] at hcheck
  refine ⟨?_, ?_, ?_⟩
  · simp [Pow.verify, hid, hresp, hcheck]
  · intro b hb
    have hne : Sha256.sha256 (c.nonce ++ Pow.u64_le_bytes r.solution_nonce) ≠ b := by
      rw [← hresp]
      exact fun he => hb he.symm
    simp [Pow.verify, hid, hne]
  · intro n hn
    simp [Pow.verify, hid, hn]

/-- Witness for C2 at the concrete challenge `("t1", nonce "abc",
difficulty 8)`: nonce 203 is a solution (its hash starts with a zero byte),
the resulting response verifies, and bumping the solution nonce to 204 makes
verification fail. -/
theorem c2_pow_compute_verify_witness :
    Pow.compute_cpu_post
      ⟨"t1", [97, 98, 99], 8, 0⟩
      ⟨"t1", [0, 210, 179, 212, 8, 69, 76, 125, 0, 163, 175, 139, 124, 100, 154,
        159, 2, 105, 253, 248, 69, 249, 26, 178, 112, 10, 101, 58, 248, 23, 39,
        245], 203, 5, ⟨"unknown", "unknown", none, none⟩⟩ ∧
    Pow.verify ⟨"t1", [97, 98, 99], 8, 0⟩
      ⟨"t1", [0, 210, 179, 212, 8, 69, 76, 125, 0, 163, 175, 139, 124, 100, 154,
        159, 2, 105, 253, 248, 69, 249, 26, 178, 112, 10, 101, 58, 248, 23, 39,
        245], 203, 5, ⟨"unknown", "unknown", none, none⟩⟩ = true ∧
    Pow.verify ⟨"t1", [97, 98, 99], 8, 0⟩
      ⟨"t1", [0, 210, 179, 212, 8, 69, 76, 125, 0, 163, 175, 139, 124, 100, 154,
        159, 2, 105, 253, 248, 69, 249, 26, 178, 112, 10, 101, 58, 248, 23, 39,
        245], 204, 5, ⟨"unknown", "unknown", none, none⟩⟩ = false := by
  have hpost : Pow.compute_cpu_post
      ⟨"t1", [97, 98, 99], 8, 0⟩
      ⟨"t1", [0, 210, 179, 212, 8, 69, 76, 125, 0, 163, 175, 139, 124, 100, 154,
        159, 2, 105, 253, 248, 69, 249, 26, 178, 112, 10, 101, 58, 248, 23, 39,
        245], 203, 5, ⟨"unknown", "unknown", none, none⟩⟩ := by decide
  refine ⟨hpost, (c2_pow_compute_verify _ _ hpost (by decide)).1, ?_⟩
  exact (c2_pow_compute_verify _ _ hpost (by decide)).2.2 204 (by decide)

/-- Claim C5 — the round-trip `decode(encode(m)) = m` FAILS for the message
types whose payload struct carries its own `timestamp` field
(`AUTH_CHALLENGE`, `TASK_PROGRESS`, `HEARTBEAT`): serialization flattens the
payload into the envelope's JSON object, emitting a second `"timestamp"` key,
and deserialization then rejects the object with a `duplicate field timestamp`
error.  Evaluated here at the heartbeat message the repository's own
`test_message_serialization` builds (which `unwrap`s the decode and would
panic).  A payload without such a field — the `TASK_REJECT` message below —
does round-trip, so the failure is specifically the flatten/duplicate-key
collision. -/
theorem c5_roundtrip_code_bug :
    Proto.from_json (Proto.to_json
      ⟨"6ba7b810-9dad-11d1-80b4-00c04fd430c8", 1700000000,
        Proto.MessageType.Heartbeat,
        Proto.MessagePayload.Heartbeat
          ⟨"agent-test-001", Proto.AgentStatus.Idle, none, [], 3600,
            1700000000⟩⟩) =
      .error "duplicate field timestamp" ∧
    (Proto.from_json (Proto.to_json
      ⟨"6ba7b810-9dad-11d1-80b4-00c04fd430c8", 1700000000,
        Proto.MessageType.Heartbeat,
        Proto.MessagePayload.Heartbeat
          ⟨"agent-test-001", Proto.AgentStatus.Idle, none, [], 3600,
            1700000000⟩⟩) =
      .ok ⟨"6ba7b810-9dad-11d1-80b4-00c04fd430c8", 1700000000,
        Proto.MessageType.Heartbeat,
        Proto.MessagePayload.Heartbeat
          ⟨"agent-test-001", Proto.AgentStatus.Idle, none, [], 3600,
            1700000000⟩⟩ → False) ∧
    Proto.from_json (Proto.to_json
      ⟨"u1", 1700000001, Proto.MessageType.TaskReject,
        Proto.MessagePayload.TaskReject
          ⟨"task-1", "insufficient_resources", "busy"⟩⟩) =
      .ok ⟨"u1", 1700000001, Proto.MessageType.TaskReject,
        Proto.MessagePayload.TaskReject
          ⟨"task-1", "insufficient_resources", "busy"⟩⟩ := by
  refine ⟨rfl, ?_, rfl⟩
  intro h
  rw [show Proto.from_json (Proto.to_json
      ⟨"6ba7b810-9dad-11d1-80b4-00c04fd430c8", 1700000000,
        Proto.MessageType.Heartbeat,
        Proto.MessagePayload.Heartbeat
          ⟨"agent-test-001", Proto.AgentStatus.Idle, none, [], 3600,
            1700000000⟩⟩) =
      Except.error "duplicate field timestamp" from rfl] at h
  exact Except.noConfusion h
